import Mathlib

/-!
Verification of the gameplay simulation core of the game

  Space is Left (C sources: engine.h game section)

as a shallow embedding in Lean 4.

Modelling conventions:
* C float values are modelled as real numbers; float rounding is not modelled.
  The C cast (int) on a float is modelled by truncation toward zero.
* The C segment array of capacity MAX_SEGMENTS together with segmentCount is
  modelled by the list of the live segments, indices 0 .. segmentCount - 1
  (index 0 is the head); slots beyond segmentCount are never read by the game.
* The powerup pool of 20 slots and the particle pool of 100 slots are modelled
  by lists holding the entire pool, inactive slots included.
* Calls to the C library function rand() are modelled by streams of natural
  numbers supplied by the caller; each call site receives its own stream.
* Sound triggers (PlayPickupSound and so on) are events emitted to the audio
  collaborator; they do not read or write any game state and are not modelled.
  The Sound handles, master volume and fallback-audio fields of GameState are
  audio resources outside the simulation core and are likewise not modelled.
* Keyboard, mouse and gamepad polling is modelled by a GameInput record whose
  fields are the values the C code reads from the input library.
-/

namespace SpaceIsLeft

noncomputable section

/-- Truncation toward zero, the semantics of the C cast from float to int. -/
def truncInt (x : ℝ) : ℤ := if 0 ≤ x then ⌊x⌋ else ⌈x⌉

/-- The two-argument arctangent, semantics of atan2f(y, x). -/
def atan2f (y x : ℝ) : ℝ :=
  if 0 < x then Real.arctan (y / x)
  else if x < 0 then
    (if 0 ≤ y then Real.arctan (y / x) + Real.pi else Real.arctan (y / x) - Real.pi)
  else
    (if 0 < y then Real.pi / 2 else if y < 0 then -(Real.pi / 2) else 0)

/-- raylib Vector3. -/
structure Vector3 where
  x : ℝ
  y : ℝ
  z : ℝ

/-- raymath Vector3Add. -/
def Vector3Add (a b : Vector3) : Vector3 := ⟨a.x + b.x, a.y + b.y, a.z + b.z⟩

/-- raymath Vector3Subtract. -/
def Vector3Subtract (a b : Vector3) : Vector3 := ⟨a.x - b.x, a.y - b.y, a.z - b.z⟩

/-- raymath Vector3Scale. -/
def Vector3Scale (v : Vector3) (s : ℝ) : Vector3 := ⟨v.x * s, v.y * s, v.z * s⟩

/-- raymath Vector3Length. -/
def Vector3Length (v : Vector3) : ℝ := Real.sqrt (v.x ^ 2 + v.y ^ 2 + v.z ^ 2)

/-- raymath Vector3Distance. -/
def Vector3Distance (a b : Vector3) : ℝ := Vector3Length (Vector3Subtract b a)

/-- raymath Vector3Normalize; in this code it is only applied to vectors of
positive length. -/
def Vector3Normalize (v : Vector3) : Vector3 := Vector3Scale v (1 / Vector3Length v)

/-- raymath Vector3Lerp. -/
def Vector3Lerp (a b : Vector3) (t : ℝ) : Vector3 :=
  ⟨a.x + t * (b.x - a.x), a.y + t * (b.y - a.y), a.z + t * (b.z - a.z)⟩

/-- raylib Color (8-bit channels, modelled as integers). -/
structure Color where
  r : ℤ
  g : ℤ
  b : ℤ
  a : ℤ

def SKYBLUE : Color := ⟨102, 191, 255, 255⟩
def YELLOW : Color := ⟨253, 249, 0, 255⟩
def PURPLE : Color := ⟨200, 122, 255, 255⟩
def GREEN : Color := ⟨0, 228, 48, 255⟩
def ORANGE : Color := ⟨255, 161, 0, 255⟩
def GOLD : Color := ⟨255, 203, 0, 255⟩
def WHITE : Color := ⟨255, 255, 255, 255⟩
def RED : Color := ⟨230, 41, 55, 255⟩

/-! Game constants from engine.h. -/

def ARENA_SIZE : ℝ := 100
def INITIAL_SEGMENTS : ℕ := 5
def MAX_SEGMENTS : ℕ := 500
def SEGMENT_SIZE : ℝ := 0.8
def SEGMENT_SPACING : ℝ := 1.0
def LINE_RIDER_SPEED : ℝ := 12
def TURN_SPEED : ℝ := 2.8
def ENERGY_DRAIN_RATE : ℝ := 1.5
def MAX_ENERGY : ℝ := 100
def ENERGY_BAR_VALUE : ℝ := 20
def POWERUP_LIFETIME : ℝ := 30
def PARTICLE_COUNT : ℕ := 100
def STAR_COUNT : ℕ := 200
def POWERUP_SIZE : ℝ := 0.8
def HARDCORE_SPEED_MULTI : ℝ := 2

/-- Powerup types (enum PowerupType). -/
inductive PowerupType where
  | energy
  | speedBoost
  | slowTime
  | shield
  | shrink
  | bonusPoints
deriving DecidableEq, Inhabited

/-- The value rand() % POWERUP_TYPE_COUNT, an integer in 0..5, as a
PowerupType. -/
def PowerupType.fromNat (n : ℕ) : PowerupType :=
  match n with
  | 0 => .energy
  | 1 => .speedBoost
  | 2 => .slowTime
  | 3 => .shield
  | 4 => .shrink
  | _ => .bonusPoints

/-- Difficulty levels (enum DifficultyLevel). -/
inductive DifficultyLevel where
  | easy
  | hardcore
deriving DecidableEq, Inhabited

/-- struct LineSegment. -/
structure LineSegment where
  position : Vector3
  previousPos : Vector3
  angle : ℝ
  color : Color
  glowIntensity : ℝ
  isHead : Bool

/-- The all-zero LineSegment, the value memset(0) gives a pool slot. -/
def zeroSegment : LineSegment :=
  ⟨⟨0, 0, 0⟩, ⟨0, 0, 0⟩, 0, ⟨0, 0, 0, 0⟩, 0, false⟩

/-- struct LineRider.  The segments list holds the live segments
segments[0 .. segmentCount), head first; segmentCount is its length. -/
structure LineRider where
  segments : List LineSegment
  direction : ℝ
  speed : ℝ
  energy : ℝ
  score : ℝ
  alive : Bool
  boosted : Bool
  boostTimer : ℝ
  shieldTimer : ℝ
  turnsCompleted : ℤ
  totalRotation : ℝ

/-- struct Powerup. -/
structure Powerup where
  position : Vector3
  type : PowerupType
  lifetime : ℝ
  rotation : ℝ
  bobOffset : ℝ
  active : Bool
  color : Color

/-- The all-zero Powerup, the value memset(0) gives a pool slot. -/
def zeroPowerup : Powerup :=
  ⟨⟨0, 0, 0⟩, .energy, 0, 0, 0, false, ⟨0, 0, 0, 0⟩⟩

/-- struct Particle. -/
structure Particle where
  position : Vector3
  velocity : Vector3
  color : Color
  lifetime : ℝ
  size : ℝ

/-- The all-zero Particle, the value memset(0) gives a pool slot. -/
def zeroParticle : Particle :=
  ⟨⟨0, 0, 0⟩, ⟨0, 0, 0⟩, ⟨0, 0, 0, 0⟩, 0, 0⟩

/-- struct Star. -/
structure Star where
  position : Vector3
  brightness : ℝ
  twinkle : ℝ

/-- struct GameState (simulation-core fields; audio resource handles are the
concern of the audio collaborator and are not modelled). -/
structure GameState where
  rider : LineRider
  powerups : List Powerup
  particles : List Particle
  stars : List Star
  gameTime : ℝ
  slowTimeMultiplier : ℝ
  level : ℤ
  paused : Bool
  gameOver : Bool
  inMenu : Bool
  difficulty : DifficultyLevel
  difficultyMultiplier : ℝ
  cameraShake : ℝ
  arenaCenter : Vector3
  powerupSpawnTimer : ℝ
  highScore : ℤ
  highScoreHardcore : ℤ
  soundEnabled : Bool
  showFPS : Bool

/-- raylib DEG2RAD. -/
def DEG2RAD : ℝ := Real.pi / 180

/-- GetPowerupColor from engine.h. -/
def GetPowerupColor (t : PowerupType) : Color :=
  match t with
  | .energy => SKYBLUE
  | .speedBoost => YELLOW
  | .slowTime => PURPLE
  | .shield => GREEN
  | .shrink => ORANGE
  | .bonusPoints => GOLD

/-- One particle as filled in by SpawnParticles; r is the stream of the five
rand() draws for its velocity, lifetime and size. -/
def freshParticle (position : Vector3) (color : Color) (r : ℕ → ℕ) : Particle :=
  { position := position
    velocity := ⟨(((r 0 % 100 : ℕ) : ℝ) - 50) * 0.1,
                 ((r 1 % 100 : ℕ) : ℝ) * 0.1,
                 (((r 2 % 100 : ℕ) : ℝ) - 50) * 0.1⟩
    color := color
    lifetime := 1 + ((r 3 % 100 : ℕ) : ℝ) * 0.01
    size := 0.1 + ((r 4 % 30 : ℕ) : ℝ) * 0.01 }

/-- Store a particle in the first free pool slot (lifetime at most 0); a
silent no-op when the pool is saturated. -/
def storeInFirstFree (p : Particle) : List Particle → List Particle
  | [] => []
  | q :: rest => if q.lifetime ≤ 0 then p :: rest else q :: storeInFirstFree p rest

/-- SpawnParticles from engine.h: one first-free-slot fill per requested
particle, at most PARTICLE_COUNT requests honoured per call. -/
def SpawnParticles (rng : ℕ → ℕ) (pool : List Particle) (position : Vector3)
    (color : Color) (count : ℕ) : List Particle :=
  (List.range (min count PARTICLE_COUNT)).foldl
    (fun acc i => storeInFirstFree (freshParticle position color (fun k => rng (5 * i + k))) acc)
    pool

/-- One star as filled in by InitStars from five rand() draws. -/
def freshStar (r : ℕ → ℕ) : Star :=
  { position := ⟨((r 0 % 200 : ℕ) : ℝ) - 100,
                 ((r 1 % 20 : ℕ) : ℝ) - 10,
                 ((r 2 % 200 : ℕ) : ℝ) - 100⟩
    brightness := 0.3 + ((r 3 % 70 : ℕ) : ℝ) / 100
    twinkle := ((r 4 % 100 : ℕ) : ℝ) / 100 }

/-- InitStars from engine.h. -/
def InitStars (rng : ℕ → ℕ) : List Star :=
  (List.range STAR_COUNT).map (fun i => freshStar (fun k => rng (5 * i + k)))

/-- The powerup SpawnPowerup fills into a free slot; r is the stream of its
five rand() draws (type, energy reroll, angle, distance, bob offset). -/
def freshPowerup (r : ℕ → ℕ) : Powerup :=
  let t0 := PowerupType.fromNat (r 0 % 6)
  let t := if r 1 % 100 < 40 then PowerupType.energy else t0
  let angle := ((r 2 % 360 : ℕ) : ℝ) * DEG2RAD
  let distance := 10 + ((r 3 % 40 : ℕ) : ℝ)
  { position := ⟨Real.cos angle * distance, 1, Real.sin angle * distance⟩
    type := t
    lifetime := POWERUP_LIFETIME
    rotation := 0
    bobOffset := ((r 4 % 100 : ℕ) : ℝ) * 0.1
    active := true
    color := GetPowerupColor t }

/-- Store a powerup in the first inactive pool slot; a silent no-op when all
20 slots are active. -/
def storeInFirstInactive (p : Powerup) : List Powerup → List Powerup
  | [] => []
  | q :: rest => if q.active then q :: storeInFirstInactive p rest else p :: rest

/-- SpawnPowerup from engine.h. -/
def SpawnPowerup (rng : ℕ → ℕ) (g : GameState) : GameState :=
  { g with powerups := storeInFirstInactive (freshPowerup rng) g.powerups }

/-- One initial segment written by InitLineRider. -/
def initSegment (i : ℕ) : LineSegment :=
  let t : ℝ := (i : ℝ) / (INITIAL_SEGMENTS : ℝ)
  { position := ⟨0, 0.5, -(i : ℝ) * SEGMENT_SPACING⟩
    previousPos := ⟨0, 0.5, -(i : ℝ) * SEGMENT_SPACING⟩
    angle := 0
    isHead := decide (i = 0)
    color := ⟨truncInt (100 + 155 * (1 - t)), truncInt (200 + 55 * (1 - t)), 255, 255⟩
    glowIntensity := 1 - t * 0.5 }

/-- InitLineRider from engine.h; the C code reads the difficulty multiplier
out of the game state it is passed. -/
def InitLineRider (difficultyMultiplier : ℝ) : LineRider :=
  { segments := (List.range INITIAL_SEGMENTS).map initSegment
    direction := 0
    speed := LINE_RIDER_SPEED * difficultyMultiplier
    energy := MAX_ENERGY
    score := 0
    alive := true
    boosted := false
    boostTimer := 0
    shieldTimer := 0
    turnsCompleted := 0
    totalRotation := 0 }

/-- The position of the head segment segments[0]. -/
def headPosition (r : LineRider) : Vector3 := (r.segments.getD 0 zeroSegment).position

/-- The rand() streams one UpdateLineRider tick may consume, one stream per
particle-spawn call site. -/
structure TickRng where
  lap : ℕ → ℕ
  wrapX : ℕ → ℕ
  wrapZ : ℕ → ℕ
  death : ℕ → ℕ → ℕ
  collision : ℕ → ℕ → ℕ

/-- The left-turn and lap-detection stage of UpdateLineRider. -/
def turnStage (dtEff turnRate : ℝ) (rng : ℕ → ℕ) (g : GameState) : GameState :=
  if 0 < turnRate then
    let turnAmount := TURN_SPEED * turnRate * dtEff * g.difficultyMultiplier
    let r1 := { g.rider with
      direction := g.rider.direction + turnAmount
      totalRotation := g.rider.totalRotation + turnAmount }
    if 2 * Real.pi ≤ r1.totalRotation then
      { g with
        rider := { r1 with
          turnsCompleted := r1.turnsCompleted + 1
          totalRotation := r1.totalRotation - 2 * Real.pi
          score := r1.score + 100 * ((r1.turnsCompleted : ℝ) + 1) }
        particles := SpawnParticles rng g.particles (headPosition g.rider) GOLD 20 }
    else { g with rider := r1 }
  else g

/-- The boost stage of UpdateLineRider: the speed used for this tick, and the
boost-timer decay. -/
def boostStage (dtEff : ℝ) (g : GameState) : ℝ × GameState :=
  if g.rider.boosted ∧ 0 < g.rider.boostTimer then
    let t := g.rider.boostTimer - dtEff
    (g.rider.speed * 1.5,
      { g with rider := { g.rider with
          boostTimer := t
          boosted := if t ≤ 0 then false else g.rider.boosted } })
  else (g.rider.speed, g)

/-- The head-move stage of UpdateLineRider. -/
def moveHeadStage (dtEff currentSpeed : ℝ) (r : LineRider) : LineRider :=
  match r.segments with
  | [] => r
  | h :: rest =>
    let moveDir : Vector3 :=
      ⟨Real.sin r.direction * currentSpeed * dtEff, 0,
       Real.cos r.direction * currentSpeed * dtEff⟩
    { r with segments :=
        { h with
          previousPos := h.position
          position := Vector3Add h.position moveDir
          angle := r.direction } :: rest }

/-- One body segment following its already-updated predecessor. -/
def followSegment (prev cur : LineSegment) : LineSegment :=
  let toTarget := Vector3Subtract prev.position cur.position
  let distance := Vector3Length toTarget
  if SEGMENT_SPACING < distance then
    let dir := Vector3Normalize toTarget
    let targetPos := Vector3Add prev.position (Vector3Scale dir (-SEGMENT_SPACING))
    { cur with
      previousPos := cur.position
      position := Vector3Lerp cur.position targetPos 0.5
      angle := atan2f toTarget.x toTarget.z }
  else { cur with previousPos := cur.position }

/-- The body segments follow in index order; each sees the updated position
of its predecessor, as the in-place C loop does. -/
def followList (prev : LineSegment) : List LineSegment → List LineSegment
  | [] => []
  | c :: rest =>
    let c2 := followSegment prev c
    c2 :: followList c2 rest

/-- The follow stage of UpdateLineRider. -/
def followStage (r : LineRider) : LineRider :=
  match r.segments with
  | [] => r
  | h :: rest => { r with segments := h :: followList h rest }

/-- The x-axis half of the boundary-wrap stage. -/
def wrapAxisX (rng : ℕ → ℕ) (g : GameState) : GameState :=
  match g.rider.segments with
  | [] => g
  | h :: rest =>
    if ARENA_SIZE / 2 < |h.position.x| then
      let h2 := { h with position := ⟨-h.position.x * 0.95, h.position.y, h.position.z⟩ }
      { g with
        rider := { g.rider with segments := h2 :: rest }
        particles := SpawnParticles rng g.particles h2.position SKYBLUE 10 }
    else g

/-- The z-axis half of the boundary-wrap stage. -/
def wrapAxisZ (rng : ℕ → ℕ) (g : GameState) : GameState :=
  match g.rider.segments with
  | [] => g
  | h :: rest =>
    if ARENA_SIZE / 2 < |h.position.z| then
      let h2 := { h with position := ⟨h.position.x, h.position.y, -h.position.z * 0.95⟩ }
      { g with
        rider := { g.rider with segments := h2 :: rest }
        particles := SpawnParticles rng g.particles h2.position SKYBLUE 10 }
    else g

/-- The boundary-wrap stage of UpdateLineRider. -/
def wrapStage (rngX rngZ : ℕ → ℕ) (g : GameState) : GameState :=
  wrapAxisZ rngZ (wrapAxisX rngX g)

/-- The per-segment death bursts (5 red particles at every segment). -/
def deathParticlesAux (rng : ℕ → ℕ → ℕ) : ℕ → List LineSegment → List Particle → List Particle
  | _, [], pool => pool
  | i, s :: rest, pool =>
    deathParticlesAux rng (i + 1) rest (SpawnParticles (rng i) pool s.position RED 5)

/-- All death bursts of the energy-death branch. -/
def deathParticles (rng : ℕ → ℕ → ℕ) (segs : List LineSegment) (pool : List Particle) :
    List Particle :=
  deathParticlesAux rng 0 segs pool

/-- The energy-drain stage of UpdateLineRider; at zero or below the energy is
clamped to 0, the rider dies and the game ends. -/
def energyStage (dtEff : ℝ) (rng : ℕ → ℕ → ℕ) (g : GameState) : GameState :=
  let e := g.rider.energy - ENERGY_DRAIN_RATE * dtEff * g.difficultyMultiplier
  if e ≤ 0 then
    { g with
      rider := { g.rider with energy := 0, alive := false }
      gameOver := true
      particles := deathParticles rng g.rider.segments g.particles }
  else { g with rider := { g.rider with energy := e } }

/-- The state change of one unshielded self-collision hit. -/
def collisionKill (rng : ℕ → ℕ) (headP : Vector3) (g : GameState) : GameState :=
  { g with
    rider := { g.rider with alive := false }
    gameOver := true
    particles := SpawnParticles rng g.particles headP RED 30 }

/-- The self-collision loop over the segments of index 4 and higher; k is the
running loop index used only to address the rand() streams. -/
def collisionFold (rng : ℕ → ℕ → ℕ) (headP : Vector3) (shield : ℝ) :
    ℕ → List LineSegment → GameState → GameState
  | _, [], g => g
  | k, s :: rest, g =>
    let g2 :=
      if Vector3Distance headP s.position < SEGMENT_SIZE then
        (if shield ≤ 0 then collisionKill (rng k) headP g else g)
      else g
    collisionFold rng headP shield (k + 1) rest g2

/-- The self-collision stage of UpdateLineRider: the head is compared with
every live segment of index at least 4 and with no other segment. -/
def collisionStage (rng : ℕ → ℕ → ℕ) (g : GameState) : GameState :=
  collisionFold rng (headPosition g.rider) g.rider.shieldTimer 0 (g.rider.segments.drop 4) g

/-- The shield-timer decay stage of UpdateLineRider. -/
def shieldStage (dtEff : ℝ) (g : GameState) : GameState :=
  if 0 < g.rider.shieldTimer then
    { g with rider := { g.rider with shieldTimer := g.rider.shieldTimer - dtEff } }
  else g

/-- The passive score accrual at the end of UpdateLineRider. -/
def passiveScoreStage (dtEff : ℝ) (g : GameState) : GameState :=
  { g with rider := { g.rider with score := g.rider.score + dtEff * 10 } }

/-- The head move lifted to the game state, fed with the current speed the
boost stage computed. -/
def moveStage (dtEff : ℝ) (sg : ℝ × GameState) : GameState :=
  { sg.2 with rider := moveHeadStage dtEff sg.1 sg.2.rider }

/-- The follow stage lifted to the game state. -/
def followStageG (g : GameState) : GameState :=
  { g with rider := followStage g.rider }

/-- UpdateLineRider from engine.h: one simulation tick of the rider.  dt is
the engine frame delta and turnRate the combined turn-left input magnitude;
the C code scales dt by the slow-time multiplier before using it. -/
def UpdateLineRider (dt turnRate : ℝ) (rng : TickRng) (g : GameState) : GameState :=
  if ¬g.rider.alive ∨ g.paused then g
  else
    let dtEff := dt * g.slowTimeMultiplier
    passiveScoreStage dtEff
      (shieldStage dtEff
        (collisionStage rng.collision
          (energyStage dtEff rng.death
            (wrapStage rng.wrapX rng.wrapZ
              (followStageG
                (moveStage dtEff
                  (boostStage dtEff
                    (turnStage dtEff turnRate rng.lap g))))))))

/-- CollectPowerup from engine.h.  Returns the updated game state and the
updated (deactivated) powerup, which UpdatePowerups writes back to its pool
slot. -/
def CollectPowerup (rng : ℕ → ℕ) (g : GameState) (p : Powerup) : GameState × Powerup :=
  let r1 :=
    match p.type with
    | .energy =>
      let e := g.rider.energy + ENERGY_BAR_VALUE
      { g.rider with energy := if MAX_ENERGY < e then MAX_ENERGY else e }
    | .speedBoost => { g.rider with boosted := true, boostTimer := 5 }
    | .slowTime => g.rider
    | .shield => { g.rider with shieldTimer := 10 }
    | .shrink =>
      if INITIAL_SEGMENTS < g.rider.segments.length then
        { g.rider with segments :=
            g.rider.segments.take (max (g.rider.segments.length - 3) INITIAL_SEGMENTS) }
      else g.rider
    | .bonusPoints => { g.rider with score := g.rider.score + 500 }
  let slow1 := if p.type = .slowTime then (0.5 : ℝ) else g.slowTimeMultiplier
  let r2 := { r1 with score := r1.score + 50 }
  let r3 :=
    if r2.segments.length < MAX_SEGMENTS - 1 ∧ p.type = .energy then
      match r2.segments.getLast? with
      | some lastSeg =>
        { r2 with segments := r2.segments ++
            [{ lastSeg with
               position := Vector3Add lastSeg.position ⟨0, 0, -SEGMENT_SPACING⟩
               isHead := false }] }
      | none => r2
    else r2
  ({ g with
     rider := r3
     slowTimeMultiplier := slow1
     particles := SpawnParticles rng g.particles p.position p.color 20
     cameraShake := 0.2 },
   { p with active := false })

/-- One particle of the UpdateParticles loop. -/
def updateOneParticle (dt : ℝ) (p : Particle) : Particle :=
  if 0 < p.lifetime then
    let lt := p.lifetime - dt
    let alpha0 := truncInt (255 * lt)
    let alpha := if alpha0 < 0 then 0 else if 255 < alpha0 then 255 else alpha0
    { p with
      lifetime := lt
      position := Vector3Add p.position (Vector3Scale p.velocity dt)
      velocity := { p.velocity with y := p.velocity.y - 5 * dt }
      color := { p.color with a := alpha } }
  else p

/-- UpdateParticles from engine.h. -/
def UpdateParticles (dt : ℝ) (pool : List Particle) : List Particle :=
  pool.map (updateOneParticle dt)

/-- One pool slot of the UpdatePowerups loop: lifetime decay, the bobbing
animation and the collection check against the rider head. -/
def updatePowerupSlot (rng : ℕ → ℕ) (dt : ℝ) (i : ℕ) (g : GameState) : GameState :=
  let p := g.powerups.getD i zeroPowerup
  if p.active then
    let lt := p.lifetime - dt
    if lt ≤ 0 then
      { g with powerups := g.powerups.set i { p with lifetime := lt, active := false } }
    else
      let p2 := { p with
        lifetime := lt
        rotation := p.rotation + dt * 2
        position := ⟨p.position.x, 1 + Real.sin (g.gameTime * 2 + p.bobOffset) * 0.2,
                     p.position.z⟩ }
      let g2 := { g with powerups := g.powerups.set i p2 }
      if Vector3Distance (headPosition g2.rider) p2.position < SEGMENT_SIZE + POWERUP_SIZE
          ∧ g2.rider.alive then
        let res := CollectPowerup rng g2 p2
        { res.1 with powerups := res.1.powerups.set i res.2 }
      else g2
  else g

/-- UpdatePowerups from engine.h: the 20 pool slots in order. -/
def UpdatePowerups (rng : ℕ → ℕ → ℕ) (dt : ℝ) (g : GameState) : GameState :=
  (List.range 20).foldl (fun acc i => updatePowerupSlot (rng i) dt i acc) g

/-- The rand() streams InitGame consumes: the star field and the eight
initial powerup spawns. -/
structure InitRng where
  stars : ℕ → ℕ
  spawns : ℕ → ℕ → ℕ

/-- InitGame from engine.h: full session reinitialization.  The C code saves
the difficulty, the two high scores and the audio settings, zeroes the whole
GameState with memset, restores the saved fields, recomputes the difficulty
multiplier, reinitializes the rider and the star field and spawns 8 initial
powerups. -/
def InitGame (rng : InitRng) (g : GameState) : GameState :=
  let dm := if g.difficulty = .hardcore then HARDCORE_SPEED_MULTI else 1
  let base : GameState :=
    { rider := InitLineRider dm
      powerups := List.replicate 20 zeroPowerup
      particles := List.replicate PARTICLE_COUNT zeroParticle
      stars := InitStars rng.stars
      gameTime := 0
      slowTimeMultiplier := 1
      level := 1
      paused := false
      gameOver := false
      inMenu := false
      difficulty := g.difficulty
      difficultyMultiplier := dm
      cameraShake := 0
      arenaCenter := ⟨0, 0, 0⟩
      powerupSpawnTimer := 2 / dm
      highScore := g.highScore
      highScoreHardcore := g.highScoreHardcore
      soundEnabled := g.soundEnabled
      showFPS := g.showFPS }
  (List.range 8).foldl (fun acc k => SpawnPowerup (rng.spawns k) acc) base

/-- Per-frame input snapshot read from the input library. -/
structure GameInput where
  dt : ℝ
  spaceDown : Bool
  mouseLeftDown : Bool
  gamepadActive : Bool
  gamepadADown : Bool
  rightTrigger : ℝ
  leftStickX : ℝ
  selectEasy : Bool
  selectHard : Bool
  confirm : Bool
  pauseKey : Bool
  soundKey : Bool
  fpsKey : Bool
  menuKey : Bool

/-- The turn-left input magnitude computed at the top of UpdateLineRider:
keyboard or mouse give the full rate, the gamepad A button gives the full
rate, and the right trigger and the left stick contribute their analog
magnitudes through fmaxf. -/
def computeTurnRate (inp : GameInput) : ℝ :=
  let t0 : ℝ := if inp.spaceDown ∨ inp.mouseLeftDown then 1 else 0
  if inp.gamepadActive then
    let t1 := if inp.gamepadADown then 1 else t0
    let t2 := if 0.1 < inp.rightTrigger then max t1 inp.rightTrigger else t1
    if inp.leftStickX < -0.1 then max t2 |inp.leftStickX| else t2
  else t0

/-- The rand() streams one UpdateGame frame may consume. -/
structure FrameRng where
  tick : TickRng
  collect : ℕ → ℕ → ℕ
  spawn : ℕ → ℕ
  interval : ℕ
  init : InitRng

/-- The menu branch of UpdateGame: difficulty selection and the start
trigger. -/
def menuStep (inp : GameInput) (rng : FrameRng) (g : GameState) : GameState :=
  let g1 := if inp.selectEasy then { g with difficulty := .easy } else g
  let g2 := if inp.selectHard then { g1 with difficulty := .hardcore } else g1
  if inp.confirm then InitGame rng.init { g2 with inMenu := false } else g2

/-- The game-time update, pause toggle and the sound and FPS toggles at the
top of a non-menu UpdateGame frame. -/
def preToggles (inp : GameInput) (g : GameState) : GameState :=
  let g1 :=
    if ¬g.paused ∧ ¬g.gameOver then { g with gameTime := g.gameTime + inp.dt } else g
  let g2 :=
    if inp.pauseKey ∧ ¬g1.gameOver then { g1 with paused := !g1.paused } else g1
  let g3 := if inp.soundKey then { g2 with soundEnabled := !g2.soundEnabled } else g2
  if inp.fpsKey then { g3 with showFPS := !g3.showFPS } else g3

/-- The per-difficulty high-score save run while the game is over. -/
def saveHighScore (g : GameState) : GameState :=
  if g.difficulty = .hardcore then
    if (g.highScoreHardcore : ℝ) < g.rider.score then
      { g with highScoreHardcore := truncInt g.rider.score }
    else g
  else
    if (g.highScore : ℝ) < g.rider.score then
      { g with highScore := truncInt g.rider.score }
    else g

/-- The game-over branch of UpdateGame: the high-score save and the restart
and menu-return triggers. -/
def gameOverStep (inp : GameInput) (rng : FrameRng) (g : GameState) : GameState :=
  let g5 := saveHighScore g
  if inp.confirm then InitGame rng.init g5
  else if inp.menuKey then { g5 with inMenu := true, gameOver := false }
  else g5

/-- The playing pipeline of UpdateGame: the rider tick, particles, powerups,
the respawn countdown, slow-time relaxation and camera-shake decay. -/
def playingPipeline (inp : GameInput) (rng : FrameRng) (g : GameState) : GameState :=
  let g6 := UpdateLineRider inp.dt (computeTurnRate inp) rng.tick g
  let g7 := { g6 with particles := UpdateParticles inp.dt g6.particles }
  let g8 := UpdatePowerups rng.collect inp.dt g7
  let g9 := { g8 with powerupSpawnTimer := g8.powerupSpawnTimer - inp.dt }
  let g10 :=
    if g9.powerupSpawnTimer ≤ 0 then
      let gA := SpawnPowerup rng.spawn g9
      { gA with powerupSpawnTimer :=
          (3 + ((rng.interval % 30 : ℕ) : ℝ) / 10) / gA.difficultyMultiplier }
    else g9
  let g11 :=
    if g10.slowTimeMultiplier < 1 then
      let s := g10.slowTimeMultiplier + inp.dt * 0.1
      { g10 with slowTimeMultiplier := if 1 < s then 1 else s }
    else g10
  if 0 < g11.cameraShake then
    let c := g11.cameraShake - inp.dt * 2
    { g11 with cameraShake := if c < 0 then 0 else c }
  else g11

/-- UpdateGame from engine.h: menu handling, pause and toggles, the game-over
high-score ratchet with its restart and menu-return triggers, and the playing
pipeline. -/
def UpdateGame (inp : GameInput) (rng : FrameRng) (g : GameState) : GameState :=
  if g.inMenu then menuStep inp rng g
  else
    let g4 := preToggles inp g
    if g4.gameOver then gameOverStep inp rng g4
    else if g4.paused then g4
    else playingPipeline inp rng g4

/-!
Projection lemmas: which state fields each tick stage leaves untouched.
These let the claim proofs compose the stages of one tick.
-/

@[simp]
theorem turnStage_segments (a m : ℝ) (r : ℕ → ℕ) (g : GameState) :
    (turnStage a m r g).rider.segments = g.rider.segments := by
  simp only [turnStage]; split_ifs <;> rfl

@[simp]
theorem turnStage_energy (a m : ℝ) (r : ℕ → ℕ) (g : GameState) :
    (turnStage a m r g).rider.energy = g.rider.energy := by
  simp only [turnStage]; split_ifs <;> rfl

@[simp]
theorem turnStage_alive (a m : ℝ) (r : ℕ → ℕ) (g : GameState) :
    (turnStage a m r g).rider.alive = g.rider.alive := by
  simp only [turnStage]; split_ifs <;> rfl

@[simp]
theorem turnStage_boosted (a m : ℝ) (r : ℕ → ℕ) (g : GameState) :
    (turnStage a m r g).rider.boosted = g.rider.boosted := by
  simp only [turnStage]; split_ifs <;> rfl

@[simp]
theorem turnStage_boostTimer (a m : ℝ) (r : ℕ → ℕ) (g : GameState) :
    (turnStage a m r g).rider.boostTimer = g.rider.boostTimer := by
  simp only [turnStage]; split_ifs <;> rfl

@[simp]
theorem turnStage_shieldTimer (a m : ℝ) (r : ℕ → ℕ) (g : GameState) :
    (turnStage a m r g).rider.shieldTimer = g.rider.shieldTimer := by
  simp only [turnStage]; split_ifs <;> rfl

@[simp]
theorem turnStage_speed (a m : ℝ) (r : ℕ → ℕ) (g : GameState) :
    (turnStage a m r g).rider.speed = g.rider.speed := by
  simp only [turnStage]; split_ifs <;> rfl

@[simp]
theorem turnStage_gameOver (a m : ℝ) (r : ℕ → ℕ) (g : GameState) :
    (turnStage a m r g).gameOver = g.gameOver := by
  simp only [turnStage]; split_ifs <;> rfl

@[simp]
theorem turnStage_difficultyMultiplier (a m : ℝ) (r : ℕ → ℕ) (g : GameState) :
    (turnStage a m r g).difficultyMultiplier = g.difficultyMultiplier := by
  simp only [turnStage]; split_ifs <;> rfl

@[simp]
theorem turnStage_highScore (a m : ℝ) (r : ℕ → ℕ) (g : GameState) :
    (turnStage a m r g).highScore = g.highScore := by
  simp only [turnStage]; split_ifs <;> rfl

@[simp]
theorem turnStage_highScoreHardcore (a m : ℝ) (r : ℕ → ℕ) (g : GameState) :
    (turnStage a m r g).highScoreHardcore = g.highScoreHardcore := by
  simp only [turnStage]; split_ifs <;> rfl

@[simp]
theorem boostStage_snd_direction (a : ℝ) (g : GameState) :
    (boostStage a g).2.rider.direction = g.rider.direction := by
  simp only [boostStage]; split_ifs <;> rfl

@[simp]
theorem boostStage_snd_totalRotation (a : ℝ) (g : GameState) :
    (boostStage a g).2.rider.totalRotation = g.rider.totalRotation := by
  simp only [boostStage]; split_ifs <;> rfl

@[simp]
theorem boostStage_snd_turnsCompleted (a : ℝ) (g : GameState) :
    (boostStage a g).2.rider.turnsCompleted = g.rider.turnsCompleted := by
  simp only [boostStage]; split_ifs <;> rfl

@[simp]
theorem boostStage_snd_score (a : ℝ) (g : GameState) :
    (boostStage a g).2.rider.score = g.rider.score := by
  simp only [boostStage]; split_ifs <;> rfl

@[simp]
theorem boostStage_snd_segments (a : ℝ) (g : GameState) :
    (boostStage a g).2.rider.segments = g.rider.segments := by
  simp only [boostStage]; split_ifs <;> rfl

@[simp]
theorem boostStage_snd_energy (a : ℝ) (g : GameState) :
    (boostStage a g).2.rider.energy = g.rider.energy := by
  simp only [boostStage]; split_ifs <;> rfl

@[simp]
theorem boostStage_snd_alive (a : ℝ) (g : GameState) :
    (boostStage a g).2.rider.alive = g.rider.alive := by
  simp only [boostStage]; split_ifs <;> rfl

@[simp]
theorem boostStage_snd_shieldTimer (a : ℝ) (g : GameState) :
    (boostStage a g).2.rider.shieldTimer = g.rider.shieldTimer := by
  simp only [boostStage]; split_ifs <;> rfl

@[simp]
theorem boostStage_snd_gameOver (a : ℝ) (g : GameState) :
    (boostStage a g).2.gameOver = g.gameOver := by
  simp only [boostStage]; split_ifs <;> rfl

@[simp]
theorem boostStage_snd_particles (a : ℝ) (g : GameState) :
    (boostStage a g).2.particles = g.particles := by
  simp only [boostStage]; split_ifs <;> rfl

@[simp]
theorem boostStage_snd_difficultyMultiplier (a : ℝ) (g : GameState) :
    (boostStage a g).2.difficultyMultiplier = g.difficultyMultiplier := by
  simp only [boostStage]; split_ifs <;> rfl

@[simp]
theorem boostStage_snd_highScore (a : ℝ) (g : GameState) :
    (boostStage a g).2.highScore = g.highScore := by
  simp only [boostStage]; split_ifs <;> rfl

@[simp]
theorem boostStage_snd_highScoreHardcore (a : ℝ) (g : GameState) :
    (boostStage a g).2.highScoreHardcore = g.highScoreHardcore := by
  simp only [boostStage]; split_ifs <;> rfl

@[simp]
theorem moveHeadStage_direction (a s : ℝ) (r : LineRider) :
    (moveHeadStage a s r).direction = r.direction := by
  unfold moveHeadStage; cases r.segments <;> rfl

@[simp]
theorem moveHeadStage_totalRotation (a s : ℝ) (r : LineRider) :
    (moveHeadStage a s r).totalRotation = r.totalRotation := by
  unfold moveHeadStage; cases r.segments <;> rfl

@[simp]
theorem moveHeadStage_turnsCompleted (a s : ℝ) (r : LineRider) :
    (moveHeadStage a s r).turnsCompleted = r.turnsCompleted := by
  unfold moveHeadStage; cases r.segments <;> rfl

@[simp]
theorem moveHeadStage_score (a s : ℝ) (r : LineRider) :
    (moveHeadStage a s r).score = r.score := by
  unfold moveHeadStage; cases r.segments <;> rfl

@[simp]
theorem moveHeadStage_energy (a s : ℝ) (r : LineRider) :
    (moveHeadStage a s r).energy = r.energy := by
  unfold moveHeadStage; cases r.segments <;> rfl

@[simp]
theorem moveHeadStage_alive (a s : ℝ) (r : LineRider) :
    (moveHeadStage a s r).alive = r.alive := by
  unfold moveHeadStage; cases r.segments <;> rfl

@[simp]
theorem moveHeadStage_shieldTimer (a s : ℝ) (r : LineRider) :
    (moveHeadStage a s r).shieldTimer = r.shieldTimer := by
  unfold moveHeadStage; cases r.segments <;> rfl

@[simp]
theorem moveHeadStage_boostTimer (a s : ℝ) (r : LineRider) :
    (moveHeadStage a s r).boostTimer = r.boostTimer := by
  unfold moveHeadStage; cases r.segments <;> rfl

@[simp]
theorem moveHeadStage_boosted (a s : ℝ) (r : LineRider) :
    (moveHeadStage a s r).boosted = r.boosted := by
  unfold moveHeadStage; cases r.segments <;> rfl

@[simp]
theorem followStage_direction (r : LineRider) :
    (followStage r).direction = r.direction := by
  unfold followStage; cases r.segments <;> rfl

@[simp]
theorem followStage_totalRotation (r : LineRider) :
    (followStage r).totalRotation = r.totalRotation := by
  unfold followStage; cases r.segments <;> rfl

@[simp]
theorem followStage_turnsCompleted (r : LineRider) :
    (followStage r).turnsCompleted = r.turnsCompleted := by
  unfold followStage; cases r.segments <;> rfl

@[simp]
theorem followStage_score (r : LineRider) :
    (followStage r).score = r.score := by
  unfold followStage; cases r.segments <;> rfl

@[simp]
theorem followStage_energy (r : LineRider) :
    (followStage r).energy = r.energy := by
  unfold followStage; cases r.segments <;> rfl

@[simp]
theorem followStage_alive (r : LineRider) :
    (followStage r).alive = r.alive := by
  unfold followStage; cases r.segments <;> rfl

@[simp]
theorem followStage_shieldTimer (r : LineRider) :
    (followStage r).shieldTimer = r.shieldTimer := by
  unfold followStage; cases r.segments <;> rfl

@[simp]
theorem followStage_boostTimer (r : LineRider) :
    (followStage r).boostTimer = r.boostTimer := by
  unfold followStage; cases r.segments <;> rfl

@[simp]
theorem followStage_boosted (r : LineRider) :
    (followStage r).boosted = r.boosted := by
  unfold followStage; cases r.segments <;> rfl

@[simp]
theorem wrapAxisX_direction (r : ℕ → ℕ) (g : GameState) :
    (wrapAxisX r g).rider.direction = g.rider.direction := by
  unfold wrapAxisX; split <;> first | rfl | (split_ifs <;> rfl)

@[simp]
theorem wrapAxisX_totalRotation (r : ℕ → ℕ) (g : GameState) :
    (wrapAxisX r g).rider.totalRotation = g.rider.totalRotation := by
  unfold wrapAxisX; split <;> first | rfl | (split_ifs <;> rfl)

@[simp]
theorem wrapAxisX_turnsCompleted (r : ℕ → ℕ) (g : GameState) :
    (wrapAxisX r g).rider.turnsCompleted = g.rider.turnsCompleted := by
  unfold wrapAxisX; split <;> first | rfl | (split_ifs <;> rfl)

@[simp]
theorem wrapAxisX_score (r : ℕ → ℕ) (g : GameState) :
    (wrapAxisX r g).rider.score = g.rider.score := by
  unfold wrapAxisX; split <;> first | rfl | (split_ifs <;> rfl)

@[simp]
theorem wrapAxisX_energy (r : ℕ → ℕ) (g : GameState) :
    (wrapAxisX r g).rider.energy = g.rider.energy := by
  unfold wrapAxisX; split <;> first | rfl | (split_ifs <;> rfl)

@[simp]
theorem wrapAxisX_alive (r : ℕ → ℕ) (g : GameState) :
    (wrapAxisX r g).rider.alive = g.rider.alive := by
  unfold wrapAxisX; split <;> first | rfl | (split_ifs <;> rfl)

@[simp]
theorem wrapAxisX_shieldTimer (r : ℕ → ℕ) (g : GameState) :
    (wrapAxisX r g).rider.shieldTimer = g.rider.shieldTimer := by
  unfold wrapAxisX; split <;> first | rfl | (split_ifs <;> rfl)

@[simp]
theorem wrapAxisX_boostTimer (r : ℕ → ℕ) (g : GameState) :
    (wrapAxisX r g).rider.boostTimer = g.rider.boostTimer := by
  unfold wrapAxisX; split <;> first | rfl | (split_ifs <;> rfl)

@[simp]
theorem wrapAxisX_boosted (r : ℕ → ℕ) (g : GameState) :
    (wrapAxisX r g).rider.boosted = g.rider.boosted := by
  unfold wrapAxisX; split <;> first | rfl | (split_ifs <;> rfl)

@[simp]
theorem wrapAxisX_gameOver (r : ℕ → ℕ) (g : GameState) :
    (wrapAxisX r g).gameOver = g.gameOver := by
  unfold wrapAxisX; split <;> first | rfl | (split_ifs <;> rfl)

@[simp]
theorem wrapAxisX_difficultyMultiplier (r : ℕ → ℕ) (g : GameState) :
    (wrapAxisX r g).difficultyMultiplier = g.difficultyMultiplier := by
  unfold wrapAxisX; split <;> first | rfl | (split_ifs <;> rfl)

@[simp]
theorem wrapAxisX_highScore (r : ℕ → ℕ) (g : GameState) :
    (wrapAxisX r g).highScore = g.highScore := by
  unfold wrapAxisX; split <;> first | rfl | (split_ifs <;> rfl)

@[simp]
theorem wrapAxisX_highScoreHardcore (r : ℕ → ℕ) (g : GameState) :
    (wrapAxisX r g).highScoreHardcore = g.highScoreHardcore := by
  unfold wrapAxisX; split <;> first | rfl | (split_ifs <;> rfl)

@[simp]
theorem wrapAxisZ_direction (r : ℕ → ℕ) (g : GameState) :
    (wrapAxisZ r g).rider.direction = g.rider.direction := by
  unfold wrapAxisZ; split <;> first | rfl | (split_ifs <;> rfl)

@[simp]
theorem wrapAxisZ_totalRotation (r : ℕ → ℕ) (g : GameState) :
    (wrapAxisZ r g).rider.totalRotation = g.rider.totalRotation := by
  unfold wrapAxisZ; split <;> first | rfl | (split_ifs <;> rfl)

@[simp]
theorem wrapAxisZ_turnsCompleted (r : ℕ → ℕ) (g : GameState) :
    (wrapAxisZ r g).rider.turnsCompleted = g.rider.turnsCompleted := by
  unfold wrapAxisZ; split <;> first | rfl | (split_ifs <;> rfl)

@[simp]
theorem wrapAxisZ_score (r : ℕ → ℕ) (g : GameState) :
    (wrapAxisZ r g).rider.score = g.rider.score := by
  unfold wrapAxisZ; split <;> first | rfl | (split_ifs <;> rfl)

@[simp]
theorem wrapAxisZ_energy (r : ℕ → ℕ) (g : GameState) :
    (wrapAxisZ r g).rider.energy = g.rider.energy := by
  unfold wrapAxisZ; split <;> first | rfl | (split_ifs <;> rfl)

@[simp]
theorem wrapAxisZ_alive (r : ℕ → ℕ) (g : GameState) :
    (wrapAxisZ r g).rider.alive = g.rider.alive := by
  unfold wrapAxisZ; split <;> first | rfl | (split_ifs <;> rfl)

@[simp]
theorem wrapAxisZ_shieldTimer (r : ℕ → ℕ) (g : GameState) :
    (wrapAxisZ r g).rider.shieldTimer = g.rider.shieldTimer := by
  unfold wrapAxisZ; split <;> first | rfl | (split_ifs <;> rfl)

@[simp]
theorem wrapAxisZ_boostTimer (r : ℕ → ℕ) (g : GameState) :
    (wrapAxisZ r g).rider.boostTimer = g.rider.boostTimer := by
  unfold wrapAxisZ; split <;> first | rfl | (split_ifs <;> rfl)

@[simp]
theorem wrapAxisZ_boosted (r : ℕ → ℕ) (g : GameState) :
    (wrapAxisZ r g).rider.boosted = g.rider.boosted := by
  unfold wrapAxisZ; split <;> first | rfl | (split_ifs <;> rfl)

@[simp]
theorem wrapAxisZ_gameOver (r : ℕ → ℕ) (g : GameState) :
    (wrapAxisZ r g).gameOver = g.gameOver := by
  unfold wrapAxisZ; split <;> first | rfl | (split_ifs <;> rfl)

@[simp]
theorem wrapAxisZ_difficultyMultiplier (r : ℕ → ℕ) (g : GameState) :
    (wrapAxisZ r g).difficultyMultiplier = g.difficultyMultiplier := by
  unfold wrapAxisZ; split <;> first | rfl | (split_ifs <;> rfl)

@[simp]
theorem wrapAxisZ_highScore (r : ℕ → ℕ) (g : GameState) :
    (wrapAxisZ r g).highScore = g.highScore := by
  unfold wrapAxisZ; split <;> first | rfl | (split_ifs <;> rfl)

@[simp]
theorem wrapAxisZ_highScoreHardcore (r : ℕ → ℕ) (g : GameState) :
    (wrapAxisZ r g).highScoreHardcore = g.highScoreHardcore := by
  unfold wrapAxisZ; split <;> first | rfl | (split_ifs <;> rfl)

@[simp]
theorem energyStage_direction (a : ℝ) (r : ℕ → ℕ → ℕ) (g : GameState) :
    (energyStage a r g).rider.direction = g.rider.direction := by
  simp only [energyStage]; split_ifs <;> rfl

@[simp]
theorem energyStage_totalRotation (a : ℝ) (r : ℕ → ℕ → ℕ) (g : GameState) :
    (energyStage a r g).rider.totalRotation = g.rider.totalRotation := by
  simp only [energyStage]; split_ifs <;> rfl

@[simp]
theorem energyStage_turnsCompleted (a : ℝ) (r : ℕ → ℕ → ℕ) (g : GameState) :
    (energyStage a r g).rider.turnsCompleted = g.rider.turnsCompleted := by
  simp only [energyStage]; split_ifs <;> rfl

@[simp]
theorem energyStage_score (a : ℝ) (r : ℕ → ℕ → ℕ) (g : GameState) :
    (energyStage a r g).rider.score = g.rider.score := by
  simp only [energyStage]; split_ifs <;> rfl

@[simp]
theorem energyStage_segments (a : ℝ) (r : ℕ → ℕ → ℕ) (g : GameState) :
    (energyStage a r g).rider.segments = g.rider.segments := by
  simp only [energyStage]; split_ifs <;> rfl

@[simp]
theorem energyStage_shieldTimer (a : ℝ) (r : ℕ → ℕ → ℕ) (g : GameState) :
    (energyStage a r g).rider.shieldTimer = g.rider.shieldTimer := by
  simp only [energyStage]; split_ifs <;> rfl

@[simp]
theorem energyStage_boostTimer (a : ℝ) (r : ℕ → ℕ → ℕ) (g : GameState) :
    (energyStage a r g).rider.boostTimer = g.rider.boostTimer := by
  simp only [energyStage]; split_ifs <;> rfl

@[simp]
theorem energyStage_boosted (a : ℝ) (r : ℕ → ℕ → ℕ) (g : GameState) :
    (energyStage a r g).rider.boosted = g.rider.boosted := by
  simp only [energyStage]; split_ifs <;> rfl

@[simp]
theorem energyStage_highScore (a : ℝ) (r : ℕ → ℕ → ℕ) (g : GameState) :
    (energyStage a r g).highScore = g.highScore := by
  simp only [energyStage]; split_ifs <;> rfl

@[simp]
theorem energyStage_highScoreHardcore (a : ℝ) (r : ℕ → ℕ → ℕ) (g : GameState) :
    (energyStage a r g).highScoreHardcore = g.highScoreHardcore := by
  simp only [energyStage]; split_ifs <;> rfl

@[simp]
theorem collisionFold_segments (r : ℕ → ℕ → ℕ) (hp : Vector3) (sh : ℝ) (k : ℕ)
    (segs : List LineSegment) (g : GameState) :
    (collisionFold r hp sh k segs g).rider.segments = g.rider.segments := by
  induction segs generalizing k g with
  | nil => rfl
  | cons s rest ih =>
    simp only [collisionFold]
    rw [ih]
    split_ifs <;> rfl

@[simp]
theorem collisionFold_direction (r : ℕ → ℕ → ℕ) (hp : Vector3) (sh : ℝ) (k : ℕ)
    (segs : List LineSegment) (g : GameState) :
    (collisionFold r hp sh k segs g).rider.direction = g.rider.direction := by
  induction segs generalizing k g with
  | nil => rfl
  | cons s rest ih =>
    simp only [collisionFold]
    rw [ih]
    split_ifs <;> rfl

@[simp]
theorem collisionFold_totalRotation (r : ℕ → ℕ → ℕ) (hp : Vector3) (sh : ℝ) (k : ℕ)
    (segs : List LineSegment) (g : GameState) :
    (collisionFold r hp sh k segs g).rider.totalRotation = g.rider.totalRotation := by
  induction segs generalizing k g with
  | nil => rfl
  | cons s rest ih =>
    simp only [collisionFold]
    rw [ih]
    split_ifs <;> rfl

@[simp]
theorem collisionFold_turnsCompleted (r : ℕ → ℕ → ℕ) (hp : Vector3) (sh : ℝ) (k : ℕ)
    (segs : List LineSegment) (g : GameState) :
    (collisionFold r hp sh k segs g).rider.turnsCompleted = g.rider.turnsCompleted := by
  induction segs generalizing k g with
  | nil => rfl
  | cons s rest ih =>
    simp only [collisionFold]
    rw [ih]
    split_ifs <;> rfl

@[simp]
theorem collisionFold_score (r : ℕ → ℕ → ℕ) (hp : Vector3) (sh : ℝ) (k : ℕ)
    (segs : List LineSegment) (g : GameState) :
    (collisionFold r hp sh k segs g).rider.score = g.rider.score := by
  induction segs generalizing k g with
  | nil => rfl
  | cons s rest ih =>
    simp only [collisionFold]
    rw [ih]
    split_ifs <;> rfl

@[simp]
theorem collisionFold_energy (r : ℕ → ℕ → ℕ) (hp : Vector3) (sh : ℝ) (k : ℕ)
    (segs : List LineSegment) (g : GameState) :
    (collisionFold r hp sh k segs g).rider.energy = g.rider.energy := by
  induction segs generalizing k g with
  | nil => rfl
  | cons s rest ih =>
    simp only [collisionFold]
    rw [ih]
    split_ifs <;> rfl

@[simp]
theorem collisionFold_shieldTimer (r : ℕ → ℕ → ℕ) (hp : Vector3) (sh : ℝ) (k : ℕ)
    (segs : List LineSegment) (g : GameState) :
    (collisionFold r hp sh k segs g).rider.shieldTimer = g.rider.shieldTimer := by
  induction segs generalizing k g with
  | nil => rfl
  | cons s rest ih =>
    simp only [collisionFold]
    rw [ih]
    split_ifs <;> rfl

@[simp]
theorem collisionFold_boostTimer (r : ℕ → ℕ → ℕ) (hp : Vector3) (sh : ℝ) (k : ℕ)
    (segs : List LineSegment) (g : GameState) :
    (collisionFold r hp sh k segs g).rider.boostTimer = g.rider.boostTimer := by
  induction segs generalizing k g with
  | nil => rfl
  | cons s rest ih =>
    simp only [collisionFold]
    rw [ih]
    split_ifs <;> rfl

@[simp]
theorem collisionFold_boosted (r : ℕ → ℕ → ℕ) (hp : Vector3) (sh : ℝ) (k : ℕ)
    (segs : List LineSegment) (g : GameState) :
    (collisionFold r hp sh k segs g).rider.boosted = g.rider.boosted := by
  induction segs generalizing k g with
  | nil => rfl
  | cons s rest ih =>
    simp only [collisionFold]
    rw [ih]
    split_ifs <;> rfl

@[simp]
theorem collisionFold_highScore (r : ℕ → ℕ → ℕ) (hp : Vector3) (sh : ℝ) (k : ℕ)
    (segs : List LineSegment) (g : GameState) :
    (collisionFold r hp sh k segs g).highScore = g.highScore := by
  induction segs generalizing k g with
  | nil => rfl
  | cons s rest ih =>
    simp only [collisionFold]
    rw [ih]
    split_ifs <;> rfl

@[simp]
theorem collisionFold_highScoreHardcore (r : ℕ → ℕ → ℕ) (hp : Vector3) (sh : ℝ) (k : ℕ)
    (segs : List LineSegment) (g : GameState) :
    (collisionFold r hp sh k segs g).highScoreHardcore = g.highScoreHardcore := by
  induction segs generalizing k g with
  | nil => rfl
  | cons s rest ih =>
    simp only [collisionFold]
    rw [ih]
    split_ifs <;> rfl

@[simp]
theorem collisionStage_segments (r : ℕ → ℕ → ℕ) (g : GameState) :
    (collisionStage r g).rider.segments = g.rider.segments := by
  unfold collisionStage; rw [collisionFold_segments]

@[simp]
theorem collisionStage_direction (r : ℕ → ℕ → ℕ) (g : GameState) :
    (collisionStage r g).rider.direction = g.rider.direction := by
  unfold collisionStage; rw [collisionFold_direction]

@[simp]
theorem collisionStage_totalRotation (r : ℕ → ℕ → ℕ) (g : GameState) :
    (collisionStage r g).rider.totalRotation = g.rider.totalRotation := by
  unfold collisionStage; rw [collisionFold_totalRotation]

@[simp]
theorem collisionStage_turnsCompleted (r : ℕ → ℕ → ℕ) (g : GameState) :
    (collisionStage r g).rider.turnsCompleted = g.rider.turnsCompleted := by
  unfold collisionStage; rw [collisionFold_turnsCompleted]

@[simp]
theorem collisionStage_score (r : ℕ → ℕ → ℕ) (g : GameState) :
    (collisionStage r g).rider.score = g.rider.score := by
  unfold collisionStage; rw [collisionFold_score]

@[simp]
theorem collisionStage_energy (r : ℕ → ℕ → ℕ) (g : GameState) :
    (collisionStage r g).rider.energy = g.rider.energy := by
  unfold collisionStage; rw [collisionFold_energy]

@[simp]
theorem collisionStage_shieldTimer (r : ℕ → ℕ → ℕ) (g : GameState) :
    (collisionStage r g).rider.shieldTimer = g.rider.shieldTimer := by
  unfold collisionStage; rw [collisionFold_shieldTimer]

@[simp]
theorem collisionStage_boostTimer (r : ℕ → ℕ → ℕ) (g : GameState) :
    (collisionStage r g).rider.boostTimer = g.rider.boostTimer := by
  unfold collisionStage; rw [collisionFold_boostTimer]

@[simp]
theorem collisionStage_boosted (r : ℕ → ℕ → ℕ) (g : GameState) :
    (collisionStage r g).rider.boosted = g.rider.boosted := by
  unfold collisionStage; rw [collisionFold_boosted]

@[simp]
theorem collisionStage_highScore (r : ℕ → ℕ → ℕ) (g : GameState) :
    (collisionStage r g).highScore = g.highScore := by
  unfold collisionStage; rw [collisionFold_highScore]

@[simp]
theorem collisionStage_highScoreHardcore (r : ℕ → ℕ → ℕ) (g : GameState) :
    (collisionStage r g).highScoreHardcore = g.highScoreHardcore := by
  unfold collisionStage; rw [collisionFold_highScoreHardcore]

@[simp]
theorem shieldStage_direction (a : ℝ) (g : GameState) :
    (shieldStage a g).rider.direction = g.rider.direction := by
  simp only [shieldStage]; split_ifs <;> rfl

@[simp]
theorem shieldStage_totalRotation (a : ℝ) (g : GameState) :
    (shieldStage a g).rider.totalRotation = g.rider.totalRotation := by
  simp only [shieldStage]; split_ifs <;> rfl

@[simp]
theorem shieldStage_turnsCompleted (a : ℝ) (g : GameState) :
    (shieldStage a g).rider.turnsCompleted = g.rider.turnsCompleted := by
  simp only [shieldStage]; split_ifs <;> rfl

@[simp]
theorem shieldStage_score (a : ℝ) (g : GameState) :
    (shieldStage a g).rider.score = g.rider.score := by
  simp only [shieldStage]; split_ifs <;> rfl

@[simp]
theorem shieldStage_segments (a : ℝ) (g : GameState) :
    (shieldStage a g).rider.segments = g.rider.segments := by
  simp only [shieldStage]; split_ifs <;> rfl

@[simp]
theorem shieldStage_energy (a : ℝ) (g : GameState) :
    (shieldStage a g).rider.energy = g.rider.energy := by
  simp only [shieldStage]; split_ifs <;> rfl

@[simp]
theorem shieldStage_alive (a : ℝ) (g : GameState) :
    (shieldStage a g).rider.alive = g.rider.alive := by
  simp only [shieldStage]; split_ifs <;> rfl

@[simp]
theorem shieldStage_boostTimer (a : ℝ) (g : GameState) :
    (shieldStage a g).rider.boostTimer = g.rider.boostTimer := by
  simp only [shieldStage]; split_ifs <;> rfl

@[simp]
theorem shieldStage_boosted (a : ℝ) (g : GameState) :
    (shieldStage a g).rider.boosted = g.rider.boosted := by
  simp only [shieldStage]; split_ifs <;> rfl

@[simp]
theorem shieldStage_gameOver (a : ℝ) (g : GameState) :
    (shieldStage a g).gameOver = g.gameOver := by
  simp only [shieldStage]; split_ifs <;> rfl

@[simp]
theorem shieldStage_highScore (a : ℝ) (g : GameState) :
    (shieldStage a g).highScore = g.highScore := by
  simp only [shieldStage]; split_ifs <;> rfl

@[simp]
theorem shieldStage_highScoreHardcore (a : ℝ) (g : GameState) :
    (shieldStage a g).highScoreHardcore = g.highScoreHardcore := by
  simp only [shieldStage]; split_ifs <;> rfl

@[simp]
theorem passiveScoreStage_direction (a : ℝ) (g : GameState) :
    (passiveScoreStage a g).rider.direction = g.rider.direction := rfl

@[simp]
theorem passiveScoreStage_totalRotation (a : ℝ) (g : GameState) :
    (passiveScoreStage a g).rider.totalRotation = g.rider.totalRotation := rfl

@[simp]
theorem passiveScoreStage_turnsCompleted (a : ℝ) (g : GameState) :
    (passiveScoreStage a g).rider.turnsCompleted = g.rider.turnsCompleted := rfl

@[simp]
theorem passiveScoreStage_score (a : ℝ) (g : GameState) :
    (passiveScoreStage a g).rider.score = g.rider.score + a * 10 := rfl

@[simp]
theorem passiveScoreStage_segments (a : ℝ) (g : GameState) :
    (passiveScoreStage a g).rider.segments = g.rider.segments := rfl

@[simp]
theorem passiveScoreStage_energy (a : ℝ) (g : GameState) :
    (passiveScoreStage a g).rider.energy = g.rider.energy := rfl

@[simp]
theorem passiveScoreStage_alive (a : ℝ) (g : GameState) :
    (passiveScoreStage a g).rider.alive = g.rider.alive := rfl

@[simp]
theorem passiveScoreStage_shieldTimer (a : ℝ) (g : GameState) :
    (passiveScoreStage a g).rider.shieldTimer = g.rider.shieldTimer := rfl

@[simp]
theorem passiveScoreStage_boostTimer (a : ℝ) (g : GameState) :
    (passiveScoreStage a g).rider.boostTimer = g.rider.boostTimer := rfl

@[simp]
theorem passiveScoreStage_boosted (a : ℝ) (g : GameState) :
    (passiveScoreStage a g).rider.boosted = g.rider.boosted := rfl

@[simp]
theorem passiveScoreStage_gameOver (a : ℝ) (g : GameState) :
    (passiveScoreStage a g).gameOver = g.gameOver := rfl

@[simp]
theorem passiveScoreStage_highScore (a : ℝ) (g : GameState) :
    (passiveScoreStage a g).highScore = g.highScore := rfl

@[simp]
theorem passiveScoreStage_highScoreHardcore (a : ℝ) (g : GameState) :
    (passiveScoreStage a g).highScoreHardcore = g.highScoreHardcore := rfl

@[simp]
theorem moveStage_rider (a : ℝ) (sg : ℝ × GameState) :
    (moveStage a sg).rider = moveHeadStage a sg.1 sg.2.rider := rfl

@[simp]
theorem moveStage_gameOver (a : ℝ) (sg : ℝ × GameState) :
    (moveStage a sg).gameOver = sg.2.gameOver := rfl

@[simp]
theorem moveStage_difficultyMultiplier (a : ℝ) (sg : ℝ × GameState) :
    (moveStage a sg).difficultyMultiplier = sg.2.difficultyMultiplier := rfl

@[simp]
theorem moveStage_highScore (a : ℝ) (sg : ℝ × GameState) :
    (moveStage a sg).highScore = sg.2.highScore := rfl

@[simp]
theorem moveStage_highScoreHardcore (a : ℝ) (sg : ℝ × GameState) :
    (moveStage a sg).highScoreHardcore = sg.2.highScoreHardcore := rfl

@[simp]
theorem followStageG_rider (g : GameState) :
    (followStageG g).rider = followStage g.rider := rfl

@[simp]
theorem followStageG_gameOver (g : GameState) :
    (followStageG g).gameOver = g.gameOver := rfl

@[simp]
theorem followStageG_difficultyMultiplier (g : GameState) :
    (followStageG g).difficultyMultiplier = g.difficultyMultiplier := rfl

@[simp]
theorem followStageG_highScore (g : GameState) :
    (followStageG g).highScore = g.highScore := rfl

@[simp]
theorem followStageG_highScoreHardcore (g : GameState) :
    (followStageG g).highScoreHardcore = g.highScoreHardcore := rfl

/-- The running-tick decomposition of UpdateLineRider into its stages. -/
theorem UpdateLineRider_run (g : GameState) (dt m : ℝ) (rng : TickRng)
    (hrun : ¬(¬g.rider.alive ∨ g.paused)) :
    UpdateLineRider dt m rng g =
      passiveScoreStage (dt * g.slowTimeMultiplier)
        (shieldStage (dt * g.slowTimeMultiplier)
          (collisionStage rng.collision
            (energyStage (dt * g.slowTimeMultiplier) rng.death
              (wrapStage rng.wrapX rng.wrapZ
                (followStageG
                  (moveStage (dt * g.slowTimeMultiplier)
                    (boostStage (dt * g.slowTimeMultiplier)
                      (turnStage (dt * g.slowTimeMultiplier) m rng.lap g)))))))) := by
  unfold UpdateLineRider
  rw [if_neg hrun]

/-!
Behaviour of the self-collision loop.
-/

theorem collisionFold_dead (r : ℕ → ℕ → ℕ) (hp : Vector3) (sh : ℝ) (k : ℕ)
    (segs : List LineSegment) (g : GameState)
    (ha : g.rider.alive = false) (hgo : g.gameOver = true) :
    (collisionFold r hp sh k segs g).rider.alive = false ∧
      (collisionFold r hp sh k segs g).gameOver = true := by
  induction segs generalizing k g with
  | nil => exact ⟨ha, hgo⟩
  | cons s rest ih =>
    simp only [collisionFold]
    refine ih _ _ ?_ ?_ <;> split_ifs <;> simp [collisionKill, ha, hgo]

theorem collisionFold_noHit (r : ℕ → ℕ → ℕ) (hp : Vector3) (sh : ℝ) (k : ℕ)
    (segs : List LineSegment) (g : GameState)
    (h : ∀ s ∈ segs, ¬ Vector3Distance hp s.position < SEGMENT_SIZE) :
    collisionFold r hp sh k segs g = g := by
  induction segs generalizing k g with
  | nil => rfl
  | cons s rest ih =>
    simp only [collisionFold]
    rw [if_neg (h s (by simp))]
    exact ih _ _ (fun t ht => h t (by simp [ht]))

theorem collisionFold_shielded (r : ℕ → ℕ → ℕ) (hp : Vector3) (sh : ℝ) (k : ℕ)
    (segs : List LineSegment) (g : GameState) (hsh : 0 < sh) :
    collisionFold r hp sh k segs g = g := by
  induction segs generalizing k g with
  | nil => rfl
  | cons s rest ih =>
    simp only [collisionFold]
    have hbranch :
        (if Vector3Distance hp s.position < SEGMENT_SIZE then
          (if sh ≤ 0 then collisionKill (r k) hp g else g) else g) = g := by
      split_ifs with h1 h2
      · linarith
      · rfl
      · rfl
    rw [hbranch]
    exact ih _ _

theorem collisionFold_hit (r : ℕ → ℕ → ℕ) (hp : Vector3) (sh : ℝ) (k : ℕ)
    (segs : List LineSegment) (g : GameState) (hsh : sh ≤ 0)
    (h : ∃ s ∈ segs, Vector3Distance hp s.position < SEGMENT_SIZE) :
    (collisionFold r hp sh k segs g).rider.alive = false ∧
      (collisionFold r hp sh k segs g).gameOver = true := by
  induction segs generalizing k g with
  | nil => simp at h
  | cons s rest ih =>
    rcases h with ⟨t, ht, hd⟩
    rcases List.mem_cons.mp ht with rfl | hmem
    · simp only [collisionFold]
      rw [if_pos hd, if_pos hsh]
      exact collisionFold_dead _ _ _ _ _ _ rfl rfl
    · simp only [collisionFold]
      exact ih _ _ ⟨t, hmem, hd⟩

/-- Membership in the dropped suffix as an index statement. -/
theorem exists_mem_drop_iff (l : List LineSegment) (n : ℕ) (P : LineSegment → Prop) :
    (∃ s ∈ l.drop n, P s) ↔
      ∃ i, n ≤ i ∧ i < l.length ∧ P (l.getD i zeroSegment) := by
  constructor
  · rintro ⟨s, hs, hP⟩
    rcases List.mem_iff_getElem.mp hs with ⟨j, hj, rfl⟩
    have hjl : n + j < l.length := by
      have := List.length_drop n l
      omega
    refine ⟨n + j, Nat.le_add_right n j, hjl, ?_⟩
    rw [List.getD_eq_getElem l zeroSegment hjl]
    rw [List.getElem_drop] at hP
    exact hP
  · rintro ⟨i, hni, hil, hP⟩
    have hj : i - n < (l.drop n).length := by
      have := List.length_drop n l
      omega
    refine ⟨(l.drop n).get ⟨i - n, hj⟩, List.get_mem _ _ _, ?_⟩
    have heq : (l.drop n).get ⟨i - n, hj⟩ = l.getD i zeroSegment := by
      rw [List.getD_eq_getElem l zeroSegment hil]
      rw [List.get_eq_getElem, List.getElem_drop]
      congr 1
      show n + (i - n) = i
      omega
    rw [heq]
    exact hP

/-!
Pointwise equations of the small stages.
-/

theorem energyStage_energy_eq (a : ℝ) (r : ℕ → ℕ → ℕ) (g : GameState) :
    (energyStage a r g).rider.energy =
      (if g.rider.energy - ENERGY_DRAIN_RATE * a * g.difficultyMultiplier ≤ 0 then 0
       else g.rider.energy - ENERGY_DRAIN_RATE * a * g.difficultyMultiplier) := by
  simp only [energyStage]; split_ifs <;> rfl

theorem energyStage_alive_eq (a : ℝ) (r : ℕ → ℕ → ℕ) (g : GameState) :
    (energyStage a r g).rider.alive =
      (if g.rider.energy - ENERGY_DRAIN_RATE * a * g.difficultyMultiplier ≤ 0 then false
       else g.rider.alive) := by
  simp only [energyStage]; split_ifs <;> rfl

theorem energyStage_gameOver_eq (a : ℝ) (r : ℕ → ℕ → ℕ) (g : GameState) :
    (energyStage a r g).gameOver =
      (if g.rider.energy - ENERGY_DRAIN_RATE * a * g.difficultyMultiplier ≤ 0 then true
       else g.gameOver) := by
  simp only [energyStage]; split_ifs <;> rfl

theorem shieldStage_shieldTimer_eq (a : ℝ) (g : GameState) :
    (shieldStage a g).rider.shieldTimer =
      (if 0 < g.rider.shieldTimer then g.rider.shieldTimer - a else g.rider.shieldTimer) := by
  simp only [shieldStage]; split_ifs <;> rfl

theorem boostStage_snd_boostTimer_eq (a : ℝ) (g : GameState) :
    (boostStage a g).2.rider.boostTimer =
      (if g.rider.boosted ∧ 0 < g.rider.boostTimer then g.rider.boostTimer - a
       else g.rider.boostTimer) := by
  simp only [boostStage]; split_ifs <;> rfl

theorem turnStage_noTurn (a m : ℝ) (r : ℕ → ℕ) (g : GameState) (h : ¬ 0 < m) :
    turnStage a m r g = g := by
  simp only [turnStage]; rw [if_neg h]

/-- The turn-left input magnitude is never negative, whatever the devices
report. -/
theorem computeTurnRate_nonneg (inp : GameInput) : 0 ≤ computeTurnRate inp := by
  have h0 : (0 : ℝ) ≤ if inp.spaceDown ∨ inp.mouseLeftDown then 1 else 0 := by
    split_ifs <;> norm_num
  unfold computeTurnRate
  split_ifs <;> simp_all [le_max_iff, abs_nonneg]

/-- Truncation toward zero does not drop below any integer strictly below
the value. -/
theorem le_truncInt_of_lt (n : ℤ) (x : ℝ) (h : (n : ℝ) < x) : n ≤ truncInt x := by
  unfold truncInt
  split_ifs with h0
  · exact Int.le_floor.mpr h.le
  · have : (n : ℝ) ≤ (⌈x⌉ : ℝ) := h.le.trans (Int.le_ceil x)
    exact_mod_cast this

/-!
Concrete states used to instantiate the claim theorems.
-/

/-- A segment sitting at the given coordinates. -/
def mkSeg (x y z : ℝ) : LineSegment :=
  { zeroSegment with position := ⟨x, y, z⟩ }

/-- A constant rand() stream. -/
def rng0 : ℕ → ℕ := fun _ => 0

/-- A constant two-level rand() stream. -/
def rng00 : ℕ → ℕ → ℕ := fun _ _ => 0

/-- Constant tick streams. -/
def tickRng0 : TickRng := ⟨rng0, rng0, rng0, rng00, rng00⟩

/-- A baseline playing state on Easy difficulty. -/
def baseState : GameState :=
  { rider := InitLineRider 1
    powerups := List.replicate 20 zeroPowerup
    particles := List.replicate PARTICLE_COUNT zeroParticle
    stars := []
    gameTime := 0
    slowTimeMultiplier := 1
    level := 1
    paused := false
    gameOver := false
    inMenu := false
    difficulty := .easy
    difficultyMultiplier := 1
    cameraShake := 0
    arenaCenter := ⟨0, 0, 0⟩
    powerupSpawnTimer := 2
    highScore := 0
    highScoreHardcore := 0
    soundEnabled := true
    showFPS := true }

theorem Vector3Distance_self (p : Vector3) : Vector3Distance p p = 0 := by
  simp [Vector3Distance, Vector3Subtract, Vector3Length]

/-!
Claim C2.
-/

/-- Claim C2: on a tick, the self-collision stage compares the head with
every segment of index at least 4 and with no others: with the shield timer
at most 0, a segment of index at least 4 within SEGMENT_SIZE of the head
marks the rider dead and flags game over; when no segment of index at least
4 is that close the stage changes nothing, whatever segments 1 to 3 do; and
with the shield timer positive the stage changes nothing, so the identical
overlap gives no death transition. -/
theorem claim_C2 (rng : ℕ → ℕ → ℕ) (g : GameState) :
    (g.rider.shieldTimer ≤ 0 →
      (∃ i, 4 ≤ i ∧ i < g.rider.segments.length ∧
        Vector3Distance (headPosition g.rider)
          ((g.rider.segments.getD i zeroSegment)).position < SEGMENT_SIZE) →
      (collisionStage rng g).rider.alive = false ∧ (collisionStage rng g).gameOver = true)
    ∧ ((∀ i, 4 ≤ i → i < g.rider.segments.length →
        ¬ Vector3Distance (headPosition g.rider)
          ((g.rider.segments.getD i zeroSegment)).position < SEGMENT_SIZE) →
      collisionStage rng g = g)
    ∧ (0 < g.rider.shieldTimer → collisionStage rng g = g) := by
  refine ⟨?_, ?_, ?_⟩
  · intro hsh hex
    unfold collisionStage
    exact collisionFold_hit _ _ _ _ _ _ hsh
      ((exists_mem_drop_iff _ 4 _).mpr hex)
  · intro hall
    unfold collisionStage
    apply collisionFold_noHit
    intro s hs hd
    rcases (exists_mem_drop_iff g.rider.segments 4
      (fun t => Vector3Distance (headPosition g.rider) t.position < SEGMENT_SIZE)).mp
      ⟨s, hs, hd⟩ with ⟨i, h1, h2, h3⟩
    exact hall i h1 h2 h3
  · intro hsh
    unfold collisionStage
    exact collisionFold_shielded _ _ _ _ _ _ hsh

/-- The state for the C2 witness: five segments stacked at one point, no
shield. -/
def c2State : GameState :=
  { baseState with rider := { baseState.rider with
      segments := [mkSeg 0 0.5 0, mkSeg 0 0.5 0, mkSeg 0 0.5 0, mkSeg 0 0.5 0,
                   mkSeg 0 0.5 0] } }

theorem claim_C2_witness :
    c2State.rider.shieldTimer ≤ 0 ∧
    (collisionStage rng00 c2State).rider.alive = false ∧
    (collisionStage rng00 c2State).gameOver = true := by
  have hsh : c2State.rider.shieldTimer ≤ 0 := by
    simp [c2State, baseState, InitLineRider]
  have hex : ∃ i, 4 ≤ i ∧ i < c2State.rider.segments.length ∧
      Vector3Distance (headPosition c2State.rider)
        ((c2State.rider.segments.getD i zeroSegment)).position < SEGMENT_SIZE := by
    refine ⟨4, le_refl 4, by simp [c2State], ?_⟩
    have h1 : headPosition c2State.rider = ⟨0, 0.5, 0⟩ := by
      simp [c2State, headPosition, mkSeg, zeroSegment]
    have h2 : (c2State.rider.segments.getD 4 zeroSegment).position = ⟨0, 0.5, 0⟩ := by
      simp [c2State, mkSeg, zeroSegment]
    rw [h1, h2, Vector3Distance_self]
    norm_num [SEGMENT_SIZE]
  exact ⟨hsh, (claim_C2 rng00 c2State).1 hsh hex⟩

/-!
CollectPowerup field equations.
-/

theorem CollectPowerup_shieldTimer (rng : ℕ → ℕ) (g : GameState) (p : Powerup) :
    (CollectPowerup rng g p).1.rider.shieldTimer =
      (if p.type = .shield then 10 else g.rider.shieldTimer) := by
  unfold CollectPowerup
  cases hp : p.type <;> simp [hp] <;> split <;> first | rfl | (split <;> rfl)

theorem CollectPowerup_boostTimer (rng : ℕ → ℕ) (g : GameState) (p : Powerup) :
    (CollectPowerup rng g p).1.rider.boostTimer =
      (if p.type = .speedBoost then 5 else g.rider.boostTimer) := by
  unfold CollectPowerup
  cases hp : p.type <;> simp [hp] <;> split <;> first | rfl | (split <;> rfl)

theorem CollectPowerup_energy_eq (rng : ℕ → ℕ) (g : GameState) (p : Powerup) :
    (CollectPowerup rng g p).1.rider.energy =
      (if p.type = .energy then
        (if MAX_ENERGY < g.rider.energy + ENERGY_BAR_VALUE then MAX_ENERGY
         else g.rider.energy + ENERGY_BAR_VALUE)
       else g.rider.energy) := by
  unfold CollectPowerup
  cases hp : p.type <;> simp [hp] <;> split <;> first | rfl | (split <;> rfl)

/-!
Claim C5.
-/

/-- Claim C5, amended: during a running tick a positive timer decreases by
exactly the effective frame delta and a non-positive timer is unchanged, so
both timers are non-increasing across ticks and are set only by their
powerups (boost to 5 seconds, shield to 10 seconds); but the timers are not
clamped at 0: on the tick a positive timer expires it may undershoot 0 by
less than the effective delta. -/
theorem claim_C5 (g : GameState) (dt m : ℝ) (rng : TickRng)
    (hdt : 0 ≤ dt) (hslow : 0 ≤ g.slowTimeMultiplier)
    (halive : g.rider.alive = true) (hpause : g.paused = false) :
    ((UpdateLineRider dt m rng g).rider.shieldTimer =
      (if 0 < g.rider.shieldTimer then g.rider.shieldTimer - dt * g.slowTimeMultiplier
       else g.rider.shieldTimer))
    ∧ (UpdateLineRider dt m rng g).rider.shieldTimer ≤ g.rider.shieldTimer
    ∧ (0 < g.rider.shieldTimer →
        -(dt * g.slowTimeMultiplier) < (UpdateLineRider dt m rng g).rider.shieldTimer)
    ∧ ((UpdateLineRider dt m rng g).rider.boostTimer =
      (if g.rider.boosted ∧ 0 < g.rider.boostTimer then
        g.rider.boostTimer - dt * g.slowTimeMultiplier
       else g.rider.boostTimer))
    ∧ (UpdateLineRider dt m rng g).rider.boostTimer ≤ g.rider.boostTimer
    ∧ (∀ (rngc : ℕ → ℕ) (gc : GameState) (p : Powerup),
        (CollectPowerup rngc gc p).1.rider.shieldTimer =
          (if p.type = .shield then 10 else gc.rider.shieldTimer)
        ∧ (CollectPowerup rngc gc p).1.rider.boostTimer =
          (if p.type = .speedBoost then 5 else gc.rider.boostTimer)) := by
  have hdtEff : 0 ≤ dt * g.slowTimeMultiplier := mul_nonneg hdt hslow
  have hrun : ¬(¬g.rider.alive ∨ g.paused) := by simp [halive, hpause]
  have hshield : (UpdateLineRider dt m rng g).rider.shieldTimer =
      (if 0 < g.rider.shieldTimer then g.rider.shieldTimer - dt * g.slowTimeMultiplier
       else g.rider.shieldTimer) := by
    unfold UpdateLineRider
    rw [if_neg hrun]
    simp [wrapStage, shieldStage_shieldTimer_eq]
  have hboost : (UpdateLineRider dt m rng g).rider.boostTimer =
      (if g.rider.boosted ∧ 0 < g.rider.boostTimer then
        g.rider.boostTimer - dt * g.slowTimeMultiplier
       else g.rider.boostTimer) := by
    unfold UpdateLineRider
    rw [if_neg hrun]
    simp [wrapStage, boostStage_snd_boostTimer_eq]
  refine ⟨hshield, ?_, ?_, hboost, ?_, ?_⟩
  · rw [hshield]; split_ifs <;> linarith
  · intro hpos; rw [hshield, if_pos hpos]; linarith
  · rw [hboost]; split_ifs <;> linarith
  · intro rngc gc p
    exact ⟨CollectPowerup_shieldTimer rngc gc p, CollectPowerup_boostTimer rngc gc p⟩

/-- The state for the C5 counterexample and witness: an almost expired
shield. -/
def c5State : GameState :=
  { baseState with rider := { baseState.rider with shieldTimer := 0.1 } }

/-- Claim C5, counterexample to the claim as stated: a tick of effective
delta 0.2 on a shield timer of 0.1 leaves the shield timer at -0.1, so the
timers are observable below 0; they are not clamped at 0. -/
theorem claim_C5_counterexample :
    (UpdateLineRider 0.2 0 tickRng0 c5State).rider.shieldTimer < 0 := by
  have hrun : ¬(¬c5State.rider.alive ∨ c5State.paused) := by
    simp [c5State, baseState, InitLineRider]
  have h : (UpdateLineRider 0.2 0 tickRng0 c5State).rider.shieldTimer =
      (if 0 < c5State.rider.shieldTimer then
        c5State.rider.shieldTimer - 0.2 * c5State.slowTimeMultiplier
       else c5State.rider.shieldTimer) := by
    rw [UpdateLineRider_run _ _ _ _ hrun]
    simp [wrapStage, shieldStage_shieldTimer_eq]
  rw [h]
  norm_num [c5State, baseState, InitLineRider]

theorem claim_C5_witness :
    (0 : ℝ) ≤ 0.2 ∧ (0 : ℝ) ≤ c5State.slowTimeMultiplier ∧
    c5State.rider.alive = true ∧ c5State.paused = false ∧
    (UpdateLineRider 0.2 0 tickRng0 c5State).rider.shieldTimer ≤
      c5State.rider.shieldTimer := by
  refine ⟨by norm_num, by simp [c5State, baseState],
    by simp [c5State, baseState, InitLineRider], by simp [c5State, baseState], ?_⟩
  exact (claim_C5 c5State 0.2 0 tickRng0 (by norm_num)
    (by simp [c5State, baseState]) (by simp [c5State, baseState, InitLineRider])
    (by simp [c5State, baseState])).2.1

/-!
The turn stage pointwise.
-/

theorem turnStage_direction_eq (a m : ℝ) (r : ℕ → ℕ) (g : GameState) :
    (turnStage a m r g).rider.direction =
      g.rider.direction +
        (if 0 < m then TURN_SPEED * m * a * g.difficultyMultiplier else 0) := by
  simp only [turnStage]; split_ifs <;> simp

theorem turnStage_totalRotation_eq (a m : ℝ) (r : ℕ → ℕ) (g : GameState) :
    (turnStage a m r g).rider.totalRotation =
      (if 0 < m then
        (if 2 * Real.pi ≤ g.rider.totalRotation + TURN_SPEED * m * a * g.difficultyMultiplier
         then g.rider.totalRotation + TURN_SPEED * m * a * g.difficultyMultiplier - 2 * Real.pi
         else g.rider.totalRotation + TURN_SPEED * m * a * g.difficultyMultiplier)
       else g.rider.totalRotation) := by
  simp only [turnStage]; split_ifs <;> rfl

theorem turnStage_turnsCompleted_eq (a m : ℝ) (r : ℕ → ℕ) (g : GameState) :
    (turnStage a m r g).rider.turnsCompleted =
      (if 0 < m ∧
          2 * Real.pi ≤ g.rider.totalRotation + TURN_SPEED * m * a * g.difficultyMultiplier
       then g.rider.turnsCompleted + 1 else g.rider.turnsCompleted) := by
  simp only [turnStage]
  split_ifs with h1 h2 h3 h3 <;> first | rfl | tauto

theorem turnStage_score_eq (a m : ℝ) (r : ℕ → ℕ) (g : GameState) :
    (turnStage a m r g).rider.score =
      (if 0 < m ∧
          2 * Real.pi ≤ g.rider.totalRotation + TURN_SPEED * m * a * g.difficultyMultiplier
       then g.rider.score + 100 * ((g.rider.turnsCompleted : ℝ) + 1)
       else g.rider.score) := by
  simp only [turnStage]
  split_ifs with h1 h2 h3 h3 <;> first | rfl | tauto

/-!
Claim C1.
-/

/-- Claim C1, amended: on a running tick with turn magnitude m above 0 the
heading and the cumulative rotation both grow by exactly
TURN_SPEED x m x dtEff x difficultyMultiplier where dtEff is the effective
delta dt x slowTimeMultiplier (equal to the frame delta except while a
SlowTime powerup is active); the heading never decreases whatever the input
is, and the turn magnitude the input stage computes is never negative; when
the grown cumulative rotation reaches 2 pi it is reduced by 2 pi, the lap
counter grows by one and a bonus of 100 x the post-increment lap count is
added to the score on top of the passive accrual. -/
theorem claim_C1 (g : GameState) (dt m : ℝ) (rng : TickRng)
    (hdt : 0 ≤ dt) (hslow : 0 ≤ g.slowTimeMultiplier) (hdiff : 0 ≤ g.difficultyMultiplier)
    (halive : g.rider.alive = true) (hpause : g.paused = false) :
    (∀ inp : GameInput, 0 ≤ computeTurnRate inp)
    ∧ (∀ m2 : ℝ, 0 ≤ m2 →
        g.rider.direction ≤ (UpdateLineRider dt m2 rng g).rider.direction)
    ∧ (0 < m →
        (UpdateLineRider dt m rng g).rider.direction =
          g.rider.direction +
            TURN_SPEED * m * (dt * g.slowTimeMultiplier) * g.difficultyMultiplier
        ∧ (g.rider.totalRotation +
              TURN_SPEED * m * (dt * g.slowTimeMultiplier) * g.difficultyMultiplier
              < 2 * Real.pi →
            (UpdateLineRider dt m rng g).rider.totalRotation =
              g.rider.totalRotation +
                TURN_SPEED * m * (dt * g.slowTimeMultiplier) * g.difficultyMultiplier
            ∧ (UpdateLineRider dt m rng g).rider.turnsCompleted = g.rider.turnsCompleted
            ∧ (UpdateLineRider dt m rng g).rider.score =
                g.rider.score + dt * g.slowTimeMultiplier * 10)
        ∧ (2 * Real.pi ≤
              g.rider.totalRotation +
                TURN_SPEED * m * (dt * g.slowTimeMultiplier) * g.difficultyMultiplier →
            (UpdateLineRider dt m rng g).rider.totalRotation =
              g.rider.totalRotation +
                TURN_SPEED * m * (dt * g.slowTimeMultiplier) * g.difficultyMultiplier
                - 2 * Real.pi
            ∧ (UpdateLineRider dt m rng g).rider.turnsCompleted =
                g.rider.turnsCompleted + 1
            ∧ (UpdateLineRider dt m rng g).rider.score =
                g.rider.score + 100 * ((g.rider.turnsCompleted : ℝ) + 1)
                  + dt * g.slowTimeMultiplier * 10)) := by
  have hrun : ¬(¬g.rider.alive ∨ g.paused) := by simp [halive, hpause]
  have hchain : ∀ m2 : ℝ,
      (UpdateLineRider dt m2 rng g).rider.direction =
        (turnStage (dt * g.slowTimeMultiplier) m2 rng.lap g).rider.direction
      ∧ (UpdateLineRider dt m2 rng g).rider.totalRotation =
        (turnStage (dt * g.slowTimeMultiplier) m2 rng.lap g).rider.totalRotation
      ∧ (UpdateLineRider dt m2 rng g).rider.turnsCompleted =
        (turnStage (dt * g.slowTimeMultiplier) m2 rng.lap g).rider.turnsCompleted
      ∧ (UpdateLineRider dt m2 rng g).rider.score =
        (turnStage (dt * g.slowTimeMultiplier) m2 rng.lap g).rider.score
          + dt * g.slowTimeMultiplier * 10 := by
    intro m2
    unfold UpdateLineRider
    rw [if_neg hrun]
    refine ⟨?_, ?_, ?_, ?_⟩ <;> simp [wrapStage]
  refine ⟨computeTurnRate_nonneg, ?_, ?_⟩
  · intro m2 hm2
    rw [(hchain m2).1, turnStage_direction_eq]
    have hX : 0 ≤ (if 0 < m2 then
        TURN_SPEED * m2 * (dt * g.slowTimeMultiplier) * g.difficultyMultiplier else 0) := by
      split_ifs
      · have hts : (0 : ℝ) ≤ TURN_SPEED := by norm_num [TURN_SPEED]
        exact mul_nonneg (mul_nonneg (mul_nonneg hts hm2) (mul_nonneg hdt hslow)) hdiff
      · exact le_refl 0
    linarith
  · intro hm
    refine ⟨?_, ?_, ?_⟩
    · rw [(hchain m).1, turnStage_direction_eq, if_pos hm]
    · intro hlt
      have hc : ¬ 2 * Real.pi ≤ g.rider.totalRotation +
          TURN_SPEED * m * (dt * g.slowTimeMultiplier) * g.difficultyMultiplier :=
        not_le.mpr hlt
      refine ⟨?_, ?_, ?_⟩
      · rw [(hchain m).2.1, turnStage_totalRotation_eq, if_pos hm, if_neg hc]
      · rw [(hchain m).2.2.1, turnStage_turnsCompleted_eq,
          if_neg (by tauto : ¬(0 < m ∧ 2 * Real.pi ≤ g.rider.totalRotation +
            TURN_SPEED * m * (dt * g.slowTimeMultiplier) * g.difficultyMultiplier))]
      · rw [(hchain m).2.2.2, turnStage_score_eq,
          if_neg (by tauto : ¬(0 < m ∧ 2 * Real.pi ≤ g.rider.totalRotation +
            TURN_SPEED * m * (dt * g.slowTimeMultiplier) * g.difficultyMultiplier))]
    · intro hge
      have hc : 0 < m ∧ 2 * Real.pi ≤ g.rider.totalRotation +
          TURN_SPEED * m * (dt * g.slowTimeMultiplier) * g.difficultyMultiplier := ⟨hm, hge⟩
      refine ⟨?_, ?_, ?_⟩
      · rw [(hchain m).2.1, turnStage_totalRotation_eq, if_pos hm, if_pos hge]
      · rw [(hchain m).2.2.1, turnStage_turnsCompleted_eq, if_pos hc]
      · rw [(hchain m).2.2.2, turnStage_score_eq, if_pos hc]

/-- The state for the C1 counterexample: slow time is active. -/
def c1State : GameState := { baseState with slowTimeMultiplier := 0.5 }

/-- Claim C1, counterexample to the claim as stated: with a SlowTime powerup
active (slow-time multiplier 0.5) a full-magnitude turn over a frame delta of
1 advances the heading by 1.4 rather than by
TURN_SPEED x 1 x 1 x difficultyMultiplier = 2.8: the turn uses the
slow-time-scaled delta, not the raw frame delta. -/
theorem claim_C1_counterexample :
    (UpdateLineRider 1 1 tickRng0 c1State).rider.direction ≠
      c1State.rider.direction + TURN_SPEED * 1 * 1 * c1State.difficultyMultiplier := by
  have hrun : ¬(¬c1State.rider.alive ∨ c1State.paused) := by
    simp [c1State, baseState, InitLineRider]
  have h : (UpdateLineRider 1 1 tickRng0 c1State).rider.direction =
      (turnStage (1 * c1State.slowTimeMultiplier) 1 tickRng0.lap c1State).rider.direction := by
    rw [UpdateLineRider_run _ _ _ _ hrun]
    simp [wrapStage]
  rw [h, turnStage_direction_eq, if_pos (by norm_num : (0 : ℝ) < 1)]
  norm_num [c1State, baseState, InitLineRider, TURN_SPEED]

theorem claim_C1_witness :
    (0 : ℝ) ≤ 0.01 ∧ (0 : ℝ) ≤ baseState.slowTimeMultiplier ∧
    (0 : ℝ) ≤ baseState.difficultyMultiplier ∧
    baseState.rider.alive = true ∧ baseState.paused = false ∧ (0 : ℝ) < 1 ∧
    (UpdateLineRider 0.01 1 tickRng0 baseState).rider.direction =
      baseState.rider.direction +
        TURN_SPEED * 1 * (0.01 * baseState.slowTimeMultiplier) *
          baseState.difficultyMultiplier :=
  ⟨by norm_num, by norm_num [baseState], by norm_num [baseState],
   by simp [baseState, InitLineRider], by simp [baseState], by norm_num,
   ((claim_C1 baseState 0.01 1 tickRng0 (by norm_num) (by norm_num [baseState])
     (by norm_num [baseState]) (by simp [baseState, InitLineRider])
     (by simp [baseState])).2.2 (by norm_num)).1⟩

/-!
Claim C10.
-/

/-- Claim C10: one call to UpdateLineRider increments the lap counter at most
once, and on a lap tick exactly one 2 pi is subtracted from the cumulative
rotation even when the rotation added that tick was 4 pi or more; and on a
tick whose turn magnitude is not positive the lap counter and the cumulative
rotation are untouched even if the accumulated rotation is at least 2 pi. -/
theorem claim_C10 (g : GameState) (dt m : ℝ) (rng : TickRng) :
    ((UpdateLineRider dt m rng g).rider.turnsCompleted = g.rider.turnsCompleted
      ∨ ((UpdateLineRider dt m rng g).rider.turnsCompleted = g.rider.turnsCompleted + 1
        ∧ (UpdateLineRider dt m rng g).rider.totalRotation =
            g.rider.totalRotation +
              TURN_SPEED * m * (dt * g.slowTimeMultiplier) * g.difficultyMultiplier
              - 2 * Real.pi))
    ∧ (¬ 0 < m →
        (UpdateLineRider dt m rng g).rider.turnsCompleted = g.rider.turnsCompleted
        ∧ (UpdateLineRider dt m rng g).rider.totalRotation = g.rider.totalRotation) := by
  by_cases hrun : ¬g.rider.alive ∨ g.paused
  · unfold UpdateLineRider
    rw [if_pos hrun]
    exact ⟨Or.inl rfl, fun _ => ⟨rfl, rfl⟩⟩
  · have hchain :
        (UpdateLineRider dt m rng g).rider.totalRotation =
          (turnStage (dt * g.slowTimeMultiplier) m rng.lap g).rider.totalRotation
        ∧ (UpdateLineRider dt m rng g).rider.turnsCompleted =
          (turnStage (dt * g.slowTimeMultiplier) m rng.lap g).rider.turnsCompleted := by
      unfold UpdateLineRider
      rw [if_neg hrun]
      refine ⟨?_, ?_⟩ <;> simp [wrapStage]
    constructor
    · by_cases hm : 0 < m
      · by_cases hlap : 2 * Real.pi ≤ g.rider.totalRotation +
            TURN_SPEED * m * (dt * g.slowTimeMultiplier) * g.difficultyMultiplier
        · right
          constructor
          · rw [hchain.2, turnStage_turnsCompleted_eq, if_pos ⟨hm, hlap⟩]
          · rw [hchain.1, turnStage_totalRotation_eq, if_pos hm, if_pos hlap]
        · left
          rw [hchain.2, turnStage_turnsCompleted_eq, if_neg (by tauto)]
      · left
        rw [hchain.2, turnStage_turnsCompleted_eq, if_neg (by tauto)]
    · intro hm
      constructor
      · rw [hchain.2, turnStage_turnsCompleted_eq, if_neg (by tauto)]
      · rw [hchain.1, turnStage_totalRotation_eq, if_neg hm]

/-!
Claim C3.
-/

theorem collisionStage_dead (r : ℕ → ℕ → ℕ) (g : GameState)
    (ha : g.rider.alive = false) (hgo : g.gameOver = true) :
    (collisionStage r g).rider.alive = false ∧ (collisionStage r g).gameOver = true := by
  unfold collisionStage
  exact collisionFold_dead _ _ _ _ _ _ ha hgo

/-- On a running tick whose drain takes the energy to 0 or below, the rider
ends the tick dead, with game over flagged and the energy clamped to 0. -/
theorem UpdateLineRider_energyDeath (g : GameState) (dt m : ℝ) (rng : TickRng)
    (halive : g.rider.alive = true) (hpause : g.paused = false)
    (hdrain : g.rider.energy -
      ENERGY_DRAIN_RATE * (dt * g.slowTimeMultiplier) * g.difficultyMultiplier ≤ 0) :
    (UpdateLineRider dt m rng g).rider.alive = false
    ∧ (UpdateLineRider dt m rng g).gameOver = true
    ∧ (UpdateLineRider dt m rng g).rider.energy = 0 := by
  have hrun : ¬(¬g.rider.alive ∨ g.paused) := by simp [halive, hpause]
  rw [UpdateLineRider_run g dt m rng hrun]
  set W := wrapStage rng.wrapX rng.wrapZ
    (followStageG
      (moveStage (dt * g.slowTimeMultiplier)
        (boostStage (dt * g.slowTimeMultiplier)
          (turnStage (dt * g.slowTimeMultiplier) m rng.lap g)))) with hW
  have hWe : W.rider.energy = g.rider.energy := by simp [hW, wrapStage]
  have hWd : W.difficultyMultiplier = g.difficultyMultiplier := by simp [hW, wrapStage]
  have ha : (energyStage (dt * g.slowTimeMultiplier) rng.death W).rider.alive = false := by
    rw [energyStage_alive_eq, hWe, hWd, if_pos hdrain]
  have hgo : (energyStage (dt * g.slowTimeMultiplier) rng.death W).gameOver = true := by
    rw [energyStage_gameOver_eq, hWe, hWd, if_pos hdrain]
  have he : (energyStage (dt * g.slowTimeMultiplier) rng.death W).rider.energy = 0 := by
    rw [energyStage_energy_eq, hWe, hWd, if_pos hdrain]
  have hc := collisionStage_dead rng.collision _ ha hgo
  refine ⟨?_, ?_, ?_⟩
  · simp [hc.1]
  · simp [hc.2]
  · simp [he]

/-- Claim C3: starting from energy in [0, MAX_ENERGY], a tick keeps the
energy in [0, MAX_ENERGY]; on a running tick whose drain reaches 0 or below
the energy is clamped to 0, the rider is marked dead and game over is
flagged; and collecting a powerup keeps the energy in [0, MAX_ENERGY] — an
Energy powerup adds ENERGY_BAR_VALUE clamped at MAX_ENERGY, so collecting it
at full energy gives no increase beyond the maximum. -/
theorem claim_C3 (g : GameState) (dt m : ℝ) (rng : TickRng)
    (hdt : 0 ≤ dt) (hslow : 0 ≤ g.slowTimeMultiplier) (hdiff : 0 ≤ g.difficultyMultiplier)
    (h0 : 0 ≤ g.rider.energy) (h1 : g.rider.energy ≤ MAX_ENERGY) :
    (0 ≤ (UpdateLineRider dt m rng g).rider.energy
      ∧ (UpdateLineRider dt m rng g).rider.energy ≤ MAX_ENERGY)
    ∧ (g.rider.alive = true → g.paused = false →
        g.rider.energy -
          ENERGY_DRAIN_RATE * (dt * g.slowTimeMultiplier) * g.difficultyMultiplier ≤ 0 →
        (UpdateLineRider dt m rng g).rider.energy = 0
        ∧ (UpdateLineRider dt m rng g).rider.alive = false
        ∧ (UpdateLineRider dt m rng g).gameOver = true)
    ∧ (∀ (rngc : ℕ → ℕ) (gc : GameState) (p : Powerup),
        (0 ≤ gc.rider.energy → gc.rider.energy ≤ MAX_ENERGY →
          0 ≤ (CollectPowerup rngc gc p).1.rider.energy
          ∧ (CollectPowerup rngc gc p).1.rider.energy ≤ MAX_ENERGY)
        ∧ (p.type = .energy →
            (CollectPowerup rngc gc p).1.rider.energy =
              (if MAX_ENERGY < gc.rider.energy + ENERGY_BAR_VALUE then MAX_ENERGY
               else gc.rider.energy + ENERGY_BAR_VALUE))
        ∧ (p.type = .energy → gc.rider.energy = MAX_ENERGY →
            (CollectPowerup rngc gc p).1.rider.energy = MAX_ENERGY)) := by
  have hdrain0 : 0 ≤ ENERGY_DRAIN_RATE * (dt * g.slowTimeMultiplier) * g.difficultyMultiplier := by
    have hed : (0 : ℝ) ≤ ENERGY_DRAIN_RATE := by norm_num [ENERGY_DRAIN_RATE]
    exact mul_nonneg (mul_nonneg hed (mul_nonneg hdt hslow)) hdiff
  have hmax : (0 : ℝ) ≤ MAX_ENERGY := by norm_num [MAX_ENERGY]
  refine ⟨?_, ?_, ?_⟩
  · by_cases hrun : ¬g.rider.alive ∨ g.paused
    · unfold UpdateLineRider
      rw [if_pos hrun]
      exact ⟨h0, h1⟩
    · have hE : (UpdateLineRider dt m rng g).rider.energy =
          (if g.rider.energy -
              ENERGY_DRAIN_RATE * (dt * g.slowTimeMultiplier) * g.difficultyMultiplier ≤ 0
           then 0
           else g.rider.energy -
              ENERGY_DRAIN_RATE * (dt * g.slowTimeMultiplier) * g.difficultyMultiplier) := by
        rw [UpdateLineRider_run g dt m rng hrun]
        simp [wrapStage, energyStage_energy_eq]
      rw [hE]
      split_ifs with hc
      · exact ⟨le_refl 0, hmax⟩
      · constructor <;> linarith
  · intro halive hpause hdrain
    have h := UpdateLineRider_energyDeath g dt m rng halive hpause hdrain
    exact ⟨h.2.2, h.1, h.2.1⟩
  · intro rngc gc p
    have hE := CollectPowerup_energy_eq rngc gc p
    refine ⟨?_, ?_, ?_⟩
    · intro hg0 hg1
      rw [hE]
      split_ifs with he1 he2
      · exact ⟨hmax, le_refl _⟩
      · have hbar : (0 : ℝ) ≤ ENERGY_BAR_VALUE := by norm_num [ENERGY_BAR_VALUE]
        constructor <;> linarith
      · exact ⟨hg0, hg1⟩
    · intro hp
      rw [hE, if_pos hp]
    · intro hp hfull
      rw [hE, if_pos hp, hfull]
      have hbar : (0 : ℝ) < ENERGY_BAR_VALUE := by norm_num [ENERGY_BAR_VALUE]
      rw [if_pos (by linarith)]

theorem claim_C3_witness :
    (0 : ℝ) ≤ 1 ∧ (0 : ℝ) ≤ baseState.slowTimeMultiplier ∧
    (0 : ℝ) ≤ baseState.difficultyMultiplier ∧
    (0 : ℝ) ≤ baseState.rider.energy ∧ baseState.rider.energy ≤ MAX_ENERGY ∧
    (0 ≤ (UpdateLineRider 1 1 tickRng0 baseState).rider.energy
      ∧ (UpdateLineRider 1 1 tickRng0 baseState).rider.energy ≤ MAX_ENERGY) :=
  ⟨by norm_num, by norm_num [baseState], by norm_num [baseState],
   by norm_num [baseState, InitLineRider, MAX_ENERGY],
   by norm_num [baseState, InitLineRider, MAX_ENERGY],
   (claim_C3 baseState 1 1 tickRng0 (by norm_num) (by norm_num [baseState])
     (by norm_num [baseState]) (by norm_num [baseState, InitLineRider, MAX_ENERGY])
     (by norm_num [baseState, InitLineRider, MAX_ENERGY])).1⟩

/-!
Preservation lemmas for the UpdateGame frame.
-/

theorem CollectPowerup_fst_highScore (r : ℕ → ℕ) (g : GameState) (p : Powerup) :
    (CollectPowerup r g p).1.highScore = g.highScore := by
  unfold CollectPowerup; simp only []

theorem CollectPowerup_fst_highScoreHardcore (r : ℕ → ℕ) (g : GameState) (p : Powerup) :
    (CollectPowerup r g p).1.highScoreHardcore = g.highScoreHardcore := by
  unfold CollectPowerup; simp only []

@[simp]
theorem SpawnPowerup_highScore (r : ℕ → ℕ) (g : GameState) :
    (SpawnPowerup r g).highScore = g.highScore := rfl

@[simp]
theorem SpawnPowerup_highScoreHardcore (r : ℕ → ℕ) (g : GameState) :
    (SpawnPowerup r g).highScoreHardcore = g.highScoreHardcore := rfl

@[simp]
theorem SpawnPowerup_rider (r : ℕ → ℕ) (g : GameState) :
    (SpawnPowerup r g).rider = g.rider := rfl

@[simp]
theorem SpawnPowerup_particles (r : ℕ → ℕ) (g : GameState) :
    (SpawnPowerup r g).particles = g.particles := rfl

@[simp]
theorem SpawnPowerup_gameTime (r : ℕ → ℕ) (g : GameState) :
    (SpawnPowerup r g).gameTime = g.gameTime := rfl

@[simp]
theorem SpawnPowerup_paused (r : ℕ → ℕ) (g : GameState) :
    (SpawnPowerup r g).paused = g.paused := rfl

@[simp]
theorem SpawnPowerup_gameOver (r : ℕ → ℕ) (g : GameState) :
    (SpawnPowerup r g).gameOver = g.gameOver := rfl

@[simp]
theorem SpawnPowerup_inMenu (r : ℕ → ℕ) (g : GameState) :
    (SpawnPowerup r g).inMenu = g.inMenu := rfl

@[simp]
theorem SpawnPowerup_difficulty (r : ℕ → ℕ) (g : GameState) :
    (SpawnPowerup r g).difficulty = g.difficulty := rfl

@[simp]
theorem SpawnPowerup_difficultyMultiplier (r : ℕ → ℕ) (g : GameState) :
    (SpawnPowerup r g).difficultyMultiplier = g.difficultyMultiplier := rfl

/-- A field untouched by SpawnPowerup is untouched by any fold of spawns. -/
theorem foldl_SpawnPowerup_proj {α : Type} (φ : GameState → α)
    (hφ : ∀ r g, φ (SpawnPowerup r g) = φ g)
    (f : ℕ → ℕ → ℕ) (l : List ℕ) (acc : GameState) :
    φ (l.foldl (fun a k => SpawnPowerup (f k) a) acc) = φ acc := by
  induction l generalizing acc with
  | nil => rfl
  | cons k rest ih => rw [List.foldl_cons, ih, hφ]

theorem InitGame_difficulty (rng : InitRng) (g : GameState) :
    (InitGame rng g).difficulty = g.difficulty := by
  unfold InitGame
  rw [foldl_SpawnPowerup_proj GameState.difficulty (fun _ _ => rfl)]

theorem InitGame_highScore (rng : InitRng) (g : GameState) :
    (InitGame rng g).highScore = g.highScore := by
  unfold InitGame
  rw [foldl_SpawnPowerup_proj GameState.highScore (fun _ _ => rfl)]

theorem InitGame_highScoreHardcore (rng : InitRng) (g : GameState) :
    (InitGame rng g).highScoreHardcore = g.highScoreHardcore := by
  unfold InitGame
  rw [foldl_SpawnPowerup_proj GameState.highScoreHardcore (fun _ _ => rfl)]

theorem updatePowerupSlot_highScore (r : ℕ → ℕ) (dt : ℝ) (i : ℕ) (g : GameState) :
    (updatePowerupSlot r dt i g).highScore = g.highScore := by
  simp only [updatePowerupSlot]
  split_ifs <;> simp [CollectPowerup_fst_highScore]

theorem updatePowerupSlot_highScoreHardcore (r : ℕ → ℕ) (dt : ℝ) (i : ℕ) (g : GameState) :
    (updatePowerupSlot r dt i g).highScoreHardcore = g.highScoreHardcore := by
  simp only [updatePowerupSlot]
  split_ifs <;> simp [CollectPowerup_fst_highScoreHardcore]

/-- A field untouched by one powerup slot update is untouched by the loop. -/
theorem foldl_updatePowerupSlot_proj {α : Type} (φ : GameState → α)
    (hφ : ∀ r dt i g, φ (updatePowerupSlot r dt i g) = φ g)
    (rng : ℕ → ℕ → ℕ) (dt : ℝ) (l : List ℕ) (acc : GameState) :
    φ (l.foldl (fun a i => updatePowerupSlot (rng i) dt i a) acc) = φ acc := by
  induction l generalizing acc with
  | nil => rfl
  | cons k rest ih => rw [List.foldl_cons, ih, hφ]

theorem UpdatePowerups_highScore (rng : ℕ → ℕ → ℕ) (dt : ℝ) (g : GameState) :
    (UpdatePowerups rng dt g).highScore = g.highScore := by
  unfold UpdatePowerups
  rw [foldl_updatePowerupSlot_proj GameState.highScore updatePowerupSlot_highScore]

theorem UpdatePowerups_highScoreHardcore (rng : ℕ → ℕ → ℕ) (dt : ℝ) (g : GameState) :
    (UpdatePowerups rng dt g).highScoreHardcore = g.highScoreHardcore := by
  unfold UpdatePowerups
  rw [foldl_updatePowerupSlot_proj GameState.highScoreHardcore
    updatePowerupSlot_highScoreHardcore]

theorem UpdateLineRider_highScore (dt m : ℝ) (rng : TickRng) (g : GameState) :
    (UpdateLineRider dt m rng g).highScore = g.highScore := by
  by_cases hrun : ¬g.rider.alive ∨ g.paused
  · unfold UpdateLineRider; rw [if_pos hrun]
  · rw [UpdateLineRider_run g dt m rng hrun]; simp [wrapStage]

theorem UpdateLineRider_highScoreHardcore (dt m : ℝ) (rng : TickRng) (g : GameState) :
    (UpdateLineRider dt m rng g).highScoreHardcore = g.highScoreHardcore := by
  by_cases hrun : ¬g.rider.alive ∨ g.paused
  · unfold UpdateLineRider; rw [if_pos hrun]
  · rw [UpdateLineRider_run g dt m rng hrun]; simp [wrapStage]

theorem menuStep_highScore (inp : GameInput) (rng : FrameRng) (g : GameState) :
    (menuStep inp rng g).highScore = g.highScore := by
  simp only [menuStep]
  split_ifs <;> simp [InitGame_highScore]

theorem menuStep_highScoreHardcore (inp : GameInput) (rng : FrameRng) (g : GameState) :
    (menuStep inp rng g).highScoreHardcore = g.highScoreHardcore := by
  simp only [menuStep]
  split_ifs <;> simp [InitGame_highScoreHardcore]

theorem preToggles_highScore (inp : GameInput) (g : GameState) :
    (preToggles inp g).highScore = g.highScore := by
  simp only [preToggles]; split_ifs <;> rfl

theorem preToggles_highScoreHardcore (inp : GameInput) (g : GameState) :
    (preToggles inp g).highScoreHardcore = g.highScoreHardcore := by
  simp only [preToggles]; split_ifs <;> rfl

theorem preToggles_gameOver (inp : GameInput) (g : GameState) :
    (preToggles inp g).gameOver = g.gameOver := by
  simp only [preToggles]; split_ifs <;> rfl

theorem preToggles_difficulty (inp : GameInput) (g : GameState) :
    (preToggles inp g).difficulty = g.difficulty := by
  simp only [preToggles]; split_ifs <;> rfl

theorem preToggles_rider (inp : GameInput) (g : GameState) :
    (preToggles inp g).rider = g.rider := by
  simp only [preToggles]; split_ifs <;> rfl

theorem preToggles_inMenu (inp : GameInput) (g : GameState) :
    (preToggles inp g).inMenu = g.inMenu := by
  simp only [preToggles]; split_ifs <;> rfl

theorem playingPipeline_highScore (inp : GameInput) (rng : FrameRng) (g : GameState) :
    (playingPipeline inp rng g).highScore = g.highScore := by
  simp only [playingPipeline]
  split_ifs <;>
    simp [UpdateLineRider_highScore, UpdatePowerups_highScore]

theorem playingPipeline_highScoreHardcore (inp : GameInput) (rng : FrameRng)
    (g : GameState) :
    (playingPipeline inp rng g).highScoreHardcore = g.highScoreHardcore := by
  simp only [playingPipeline]
  split_ifs <;>
    simp [UpdateLineRider_highScoreHardcore, UpdatePowerups_highScoreHardcore]

theorem saveHighScore_highScore_le (g : GameState) :
    g.highScore ≤ (saveHighScore g).highScore := by
  unfold saveHighScore
  split_ifs with h1 h2 h3
  · exact le_refl _
  · exact le_refl _
  · exact le_truncInt_of_lt _ _ h3
  · exact le_refl _

theorem saveHighScore_highScoreHardcore_le (g : GameState) :
    g.highScoreHardcore ≤ (saveHighScore g).highScoreHardcore := by
  unfold saveHighScore
  split_ifs with h1 h2 h3
  · exact le_truncInt_of_lt _ _ h2
  · exact le_refl _
  · exact le_refl _
  · exact le_refl _

theorem saveHighScore_hardcore_eq (g : GameState) (hd : g.difficulty = .hardcore) :
    (saveHighScore g).highScoreHardcore =
      (if (g.highScoreHardcore : ℝ) < g.rider.score then truncInt g.rider.score
       else g.highScoreHardcore)
    ∧ (saveHighScore g).highScore = g.highScore := by
  unfold saveHighScore
  rw [if_pos hd]
  constructor <;> split_ifs <;> rfl

theorem saveHighScore_easy_eq (g : GameState) (hd : g.difficulty = .easy) :
    (saveHighScore g).highScore =
      (if (g.highScore : ℝ) < g.rider.score then truncInt g.rider.score
       else g.highScore)
    ∧ (saveHighScore g).highScoreHardcore = g.highScoreHardcore := by
  unfold saveHighScore
  rw [if_neg (by simp [hd])]
  constructor <;> split_ifs <;> rfl

theorem gameOverStep_highScore (inp : GameInput) (rng : FrameRng) (g : GameState) :
    (gameOverStep inp rng g).highScore = (saveHighScore g).highScore := by
  simp only [gameOverStep]
  split_ifs <;> simp [InitGame_highScore]

theorem gameOverStep_highScoreHardcore (inp : GameInput) (rng : FrameRng) (g : GameState) :
    (gameOverStep inp rng g).highScoreHardcore = (saveHighScore g).highScoreHardcore := by
  simp only [gameOverStep]
  split_ifs <;> simp [InitGame_highScoreHardcore]

/-!
Claim C6.
-/

/-- Claim C6: while the game is over, every UpdateGame frame compares the
session score with the high-score record of the selected difficulty (Easy
and Hardcore records are separate fields) and assigns the truncated score
exactly when the score exceeds the record, leaving the other record alone;
the records never decrease on any frame, and a session ending below the
record leaves the record unchanged. -/
theorem claim_C6 (inp : GameInput) (rng : FrameRng) (g : GameState) :
    (g.highScore ≤ (UpdateGame inp rng g).highScore
      ∧ g.highScoreHardcore ≤ (UpdateGame inp rng g).highScoreHardcore)
    ∧ (g.inMenu = false → g.gameOver = true →
        (g.difficulty = .hardcore →
          (UpdateGame inp rng g).highScoreHardcore =
            (if (g.highScoreHardcore : ℝ) < g.rider.score then truncInt g.rider.score
             else g.highScoreHardcore)
          ∧ (UpdateGame inp rng g).highScore = g.highScore)
        ∧ (g.difficulty = .easy →
          (UpdateGame inp rng g).highScore =
            (if (g.highScore : ℝ) < g.rider.score then truncInt g.rider.score
             else g.highScore)
          ∧ (UpdateGame inp rng g).highScoreHardcore = g.highScoreHardcore))
    ∧ (g.inMenu = false → g.gameOver = true → g.difficulty = .easy →
        g.rider.score ≤ (g.highScore : ℝ) →
        (UpdateGame inp rng g).highScore = g.highScore) := by
  have hp4hs := preToggles_highScore inp g
  have hp4hsh := preToggles_highScoreHardcore inp g
  have hp4go := preToggles_gameOver inp g
  have hp4d := preToggles_difficulty inp g
  have hp4r := preToggles_rider inp g
  refine ⟨?_, ?_, ?_⟩
  · simp only [UpdateGame]
    split_ifs with hmenu hgo hpause
    · rw [menuStep_highScore, menuStep_highScoreHardcore]
      exact ⟨le_refl _, le_refl _⟩
    · rw [gameOverStep_highScore, gameOverStep_highScoreHardcore]
      constructor
      · calc g.highScore = (preToggles inp g).highScore := hp4hs.symm
          _ ≤ _ := saveHighScore_highScore_le _
      · calc g.highScoreHardcore = (preToggles inp g).highScoreHardcore := hp4hsh.symm
          _ ≤ _ := saveHighScore_highScoreHardcore_le _
    · rw [hp4hs, hp4hsh]
      exact ⟨le_refl _, le_refl _⟩
    · rw [playingPipeline_highScore, playingPipeline_highScoreHardcore, hp4hs, hp4hsh]
      exact ⟨le_refl _, le_refl _⟩
  · intro hmenu hgo
    simp only [UpdateGame]
    rw [if_neg (by simp [hmenu])]
    rw [if_pos (by rw [hp4go]; exact hgo)]
    constructor
    · intro hd
      have h := saveHighScore_hardcore_eq (preToggles inp g) (by rw [hp4d]; exact hd)
      rw [gameOverStep_highScoreHardcore, gameOverStep_highScore, h.1, h.2,
        hp4hs, hp4hsh, hp4r]
      exact ⟨rfl, rfl⟩
    · intro hd
      have h := saveHighScore_easy_eq (preToggles inp g) (by rw [hp4d]; exact hd)
      rw [gameOverStep_highScoreHardcore, gameOverStep_highScore, h.1, h.2,
        hp4hs, hp4hsh, hp4r]
      exact ⟨rfl, rfl⟩
  · intro hmenu hgo hd hle
    simp only [UpdateGame]
    rw [if_neg (by simp [hmenu])]
    rw [if_pos (by rw [hp4go]; exact hgo)]
    have h := saveHighScore_easy_eq (preToggles inp g) (by rw [hp4d]; exact hd)
    rw [gameOverStep_highScore, h.1, hp4hs, hp4r]
    rw [if_neg (not_lt.mpr hle)]

/-- The state for the C6 witness: game over on Easy with a session score
below the record. -/
def c6State : GameState :=
  { baseState with
    gameOver := true
    highScore := 250
    rider := { baseState.rider with score := 80 } }

/-- The input for the C6 witness. -/
def c6Input : GameInput :=
  { dt := 0.016
    spaceDown := false
    mouseLeftDown := false
    gamepadActive := false
    gamepadADown := false
    rightTrigger := 0
    leftStickX := 0
    selectEasy := false
    selectHard := false
    confirm := false
    pauseKey := false
    soundKey := false
    fpsKey := false
    menuKey := false }

/-- The frame streams for the C6 witness. -/
def c6Rng : FrameRng :=
  { tick := tickRng0
    collect := rng00
    spawn := rng0
    interval := 0
    init := { stars := rng0, spawns := rng00 } }

theorem claim_C6_witness :
    c6State.inMenu = false ∧ c6State.gameOver = true ∧ c6State.difficulty = .easy ∧
    c6State.rider.score ≤ (c6State.highScore : ℝ) ∧
    (UpdateGame c6Input c6Rng c6State).highScore = c6State.highScore := by
  have h1 : c6State.inMenu = false := by simp [c6State, baseState]
  have h2 : c6State.gameOver = true := by simp [c6State, baseState]
  have h3 : c6State.difficulty = .easy := by simp [c6State, baseState]
  have h4 : c6State.rider.score ≤ (c6State.highScore : ℝ) := by
    norm_num [c6State, baseState, InitLineRider]
  exact ⟨h1, h2, h3, h4, (claim_C6 c6Input c6Rng c6State).2.2 h1 h2 h3 h4⟩

/-!
Claim C9.
-/

/-- Claim C9: collecting an Energy powerup with the segment count already at
MAX_SEGMENTS - 1 or more appends no tail segment, while the other effects of
collection still happen: the clamped energy gain, the flat 50-point bonus,
the 20-particle burst, the camera-shake impulse and the deactivation of the
powerup; and no collection ever pushes the segment count past
MAX_SEGMENTS - 1, so the count never reaches MAX_SEGMENTS. -/
theorem claim_C9 (rng : ℕ → ℕ) (g : GameState) (p : Powerup)
    (htype : p.type = .energy) (hlen : MAX_SEGMENTS - 1 ≤ g.rider.segments.length) :
    (CollectPowerup rng g p).1.rider.segments.length = g.rider.segments.length
    ∧ (CollectPowerup rng g p).1.rider.energy =
        (if MAX_ENERGY < g.rider.energy + ENERGY_BAR_VALUE then MAX_ENERGY
         else g.rider.energy + ENERGY_BAR_VALUE)
    ∧ (CollectPowerup rng g p).1.rider.score = g.rider.score + 50
    ∧ (CollectPowerup rng g p).1.cameraShake = 0.2
    ∧ (CollectPowerup rng g p).1.particles =
        SpawnParticles rng g.particles p.position p.color 20
    ∧ (CollectPowerup rng g p).2.active = false
    ∧ (∀ (rng2 : ℕ → ℕ) (g2 : GameState) (p2 : Powerup),
        g2.rider.segments.length ≤ MAX_SEGMENTS - 1 →
        (CollectPowerup rng2 g2 p2).1.rider.segments.length ≤ MAX_SEGMENTS - 1) := by
  have hnot : ¬(g.rider.segments.length < MAX_SEGMENTS - 1) := not_lt.mpr hlen
  refine ⟨?_, ?_, ?_, ?_, ?_, ?_, ?_⟩
  · unfold CollectPowerup
    simp [htype, hnot]
  · rw [CollectPowerup_energy_eq, if_pos htype]
  · unfold CollectPowerup
    simp [htype, hnot]
  · unfold CollectPowerup
    simp only []
  · unfold CollectPowerup
    simp only []
  · unfold CollectPowerup
    simp only []
  · intro rng2 g2 p2 hle
    unfold CollectPowerup
    cases hp2 : p2.type <;> simp only [hp2] <;> split_ifs <;>
      try simp_all [MAX_SEGMENTS, List.length_take]
    all_goals
      cases hgl : g2.rider.segments.getLast? <;>
        (simp_all [MAX_SEGMENTS, List.length_append]; try omega)

/-- The state for the C9 witness: the segment count is already at its
ceiling. -/
def c9State : GameState :=
  { baseState with rider := { baseState.rider with
      segments := List.replicate 499 (mkSeg 0 0.5 0) } }

/-- The powerup for the C9 witness. -/
def c9Powerup : Powerup :=
  { zeroPowerup with type := .energy, active := true, lifetime := 10 }

theorem claim_C9_witness :
    c9Powerup.type = .energy ∧
    MAX_SEGMENTS - 1 ≤ c9State.rider.segments.length ∧
    (CollectPowerup rng0 c9State c9Powerup).1.rider.segments.length =
      c9State.rider.segments.length := by
  have ht : c9Powerup.type = .energy := by simp [c9Powerup, zeroPowerup]
  have hl : MAX_SEGMENTS - 1 ≤ c9State.rider.segments.length := by
    simp only [c9State, List.length_replicate]
    norm_num [MAX_SEGMENTS]
  exact ⟨ht, hl, (claim_C9 rng0 c9State c9Powerup ht hl).1⟩

/-!
Claim C7.
-/

/-- The number of active powerups in a pool. -/
def countActive (pool : List Powerup) : ℕ := (pool.filter (fun p => p.active)).length

theorem storeInFirstInactive_length (q : Powerup) (pool : List Powerup) :
    (storeInFirstInactive q pool).length = pool.length := by
  induction pool with
  | nil => rfl
  | cons p rest ih =>
    unfold storeInFirstInactive
    split_ifs <;> simp [ih]

theorem storeInFirstInactive_count (q : Powerup) (hq : q.active = true)
    (pool : List Powerup) (hex : ∃ p ∈ pool, p.active = false) :
    countActive (storeInFirstInactive q pool) = countActive pool + 1 := by
  induction pool with
  | nil => simp at hex
  | cons p rest ih =>
    unfold storeInFirstInactive
    by_cases hp : p.active
    · rw [if_pos hp]
      have hex2 : ∃ x ∈ rest, x.active = false := by
        rcases hex with ⟨x, hx, hxa⟩
        rcases List.mem_cons.mp hx with rfl | hmem
        · rw [hp] at hxa; cases hxa
        · exact ⟨x, hmem, hxa⟩
      simp only [countActive, List.filter_cons, hp, if_pos]
      simp only [countActive] at ih
      simp [ih hex2]
    · rw [if_neg hp]
      simp only [countActive, List.filter_cons, hq]
      simp [hp]

theorem exists_inactive_of_count_lt (pool : List Powerup)
    (h : countActive pool < pool.length) : ∃ p ∈ pool, p.active = false := by
  by_contra hno
  push_neg at hno
  have hall : ∀ p ∈ pool, p.active = true := by
    intro p hp
    cases hact : p.active
    · exact absurd hact (hno p hp)
    · rfl
  have : pool.filter (fun p => p.active) = pool := List.filter_eq_self.mpr hall
  rw [countActive, this] at h
  exact lt_irrefl _ h

theorem freshPowerup_active (r : ℕ → ℕ) : (freshPowerup r).active = true := rfl

theorem SpawnPowerup_powerups_length (r : ℕ → ℕ) (g : GameState) :
    (SpawnPowerup r g).powerups.length = g.powerups.length :=
  storeInFirstInactive_length _ _

/-- Each spawn of a fold lands in a free slot while capacity remains, so the
active count grows by the number of spawns. -/
theorem spawnFold_count (f : ℕ → ℕ → ℕ) (l : List ℕ) (acc : GameState)
    (h : countActive acc.powerups + l.length ≤ acc.powerups.length) :
    countActive ((l.foldl (fun a k => SpawnPowerup (f k) a) acc).powerups)
        = countActive acc.powerups + l.length
    ∧ ((l.foldl (fun a k => SpawnPowerup (f k) a) acc).powerups).length
        = acc.powerups.length := by
  induction l generalizing acc with
  | nil => simp
  | cons k rest ih =>
    rw [List.foldl_cons]
    have hlt : countActive acc.powerups < acc.powerups.length := by
      simp only [List.length_cons] at h
      omega
    have hex := exists_inactive_of_count_lt _ hlt
    have hcount : countActive (SpawnPowerup (f k) acc).powerups
        = countActive acc.powerups + 1 := by
      unfold SpawnPowerup
      exact storeInFirstInactive_count _ rfl _ hex
    have hlen := SpawnPowerup_powerups_length (f k) acc
    have hrec := ih (SpawnPowerup (f k) acc) (by
      rw [hcount, hlen]
      simp only [List.length_cons] at h
      omega)
    obtain ⟨h1, h2⟩ := hrec
    constructor
    · rw [h1, hcount]
      simp only [List.length_cons]
      omega
    · rw [h2, hlen]

theorem InitGame_rider (rng : InitRng) (g : GameState) :
    (InitGame rng g).rider =
      InitLineRider (if g.difficulty = .hardcore then HARDCORE_SPEED_MULTI else 1) := by
  unfold InitGame
  rw [foldl_SpawnPowerup_proj GameState.rider (fun _ _ => rfl)]

theorem InitGame_difficultyMultiplier (rng : InitRng) (g : GameState) :
    (InitGame rng g).difficultyMultiplier =
      (if g.difficulty = .hardcore then HARDCORE_SPEED_MULTI else 1) := by
  unfold InitGame
  rw [foldl_SpawnPowerup_proj GameState.difficultyMultiplier (fun _ _ => rfl)]

theorem InitGame_particles (rng : InitRng) (g : GameState) :
    (InitGame rng g).particles = List.replicate PARTICLE_COUNT zeroParticle := by
  unfold InitGame
  rw [foldl_SpawnPowerup_proj GameState.particles (fun _ _ => rfl)]

theorem InitGame_gameTime (rng : InitRng) (g : GameState) :
    (InitGame rng g).gameTime = 0 := by
  unfold InitGame
  rw [foldl_SpawnPowerup_proj GameState.gameTime (fun _ _ => rfl)]

theorem InitGame_paused (rng : InitRng) (g : GameState) :
    (InitGame rng g).paused = false := by
  unfold InitGame
  rw [foldl_SpawnPowerup_proj GameState.paused (fun _ _ => rfl)]

theorem InitGame_gameOver (rng : InitRng) (g : GameState) :
    (InitGame rng g).gameOver = false := by
  unfold InitGame
  rw [foldl_SpawnPowerup_proj GameState.gameOver (fun _ _ => rfl)]

theorem InitGame_inMenu (rng : InitRng) (g : GameState) :
    (InitGame rng g).inMenu = false := by
  unfold InitGame
  rw [foldl_SpawnPowerup_proj GameState.inMenu (fun _ _ => rfl)]

/-- Claim C7: InitGame keeps the selected difficulty and both high-score
records at their pre-call values and resets the session: the rider is the
freshly initialized one (INITIAL_SEGMENTS segments, full energy, zero score,
zero laps, alive), the particle pool is cleared, the powerup pool is cleared
and then exactly 8 powerups are spawned into it, and the elapsed time and
the pause, game-over and menu flags take their initial values. -/
theorem claim_C7 (rng : InitRng) (g : GameState) :
    (InitGame rng g).difficulty = g.difficulty
    ∧ (InitGame rng g).highScore = g.highScore
    ∧ (InitGame rng g).highScoreHardcore = g.highScoreHardcore
    ∧ (InitGame rng g).rider = InitLineRider (InitGame rng g).difficultyMultiplier
    ∧ (InitGame rng g).rider.segments.length = INITIAL_SEGMENTS
    ∧ (InitGame rng g).rider.energy = MAX_ENERGY
    ∧ (InitGame rng g).rider.score = 0
    ∧ (InitGame rng g).rider.turnsCompleted = 0
    ∧ (InitGame rng g).rider.alive = true
    ∧ (∀ pt ∈ (InitGame rng g).particles, pt.lifetime ≤ 0)
    ∧ (InitGame rng g).particles.length = PARTICLE_COUNT
    ∧ countActive (InitGame rng g).powerups = 8
    ∧ (InitGame rng g).powerups.length = 20
    ∧ (InitGame rng g).gameTime = 0
    ∧ (InitGame rng g).paused = false
    ∧ (InitGame rng g).gameOver = false
    ∧ (InitGame rng g).inMenu = false := by
  have hcnt : countActive (List.replicate 20 zeroPowerup) = 0 := by
    simp [countActive, List.filter_replicate, zeroPowerup]
  have hspawn := spawnFold_count rng.spawns (List.range 8)
    ({ rider := InitLineRider (if g.difficulty = .hardcore then HARDCORE_SPEED_MULTI else 1)
       powerups := List.replicate 20 zeroPowerup
       particles := List.replicate PARTICLE_COUNT zeroParticle
       stars := InitStars rng.stars
       gameTime := 0
       slowTimeMultiplier := 1
       level := 1
       paused := false
       gameOver := false
       inMenu := false
       difficulty := g.difficulty
       difficultyMultiplier := (if g.difficulty = .hardcore then HARDCORE_SPEED_MULTI else 1)
       cameraShake := 0
       arenaCenter := ⟨0, 0, 0⟩
       powerupSpawnTimer := 2 / (if g.difficulty = .hardcore then HARDCORE_SPEED_MULTI else 1)
       highScore := g.highScore
       highScoreHardcore := g.highScoreHardcore
       soundEnabled := g.soundEnabled
       showFPS := g.showFPS } : GameState)
    (by
      simp only []
      rw [hcnt]
      simp [List.length_replicate])
  refine ⟨InitGame_difficulty rng g, InitGame_highScore rng g,
    InitGame_highScoreHardcore rng g, ?_, ?_, ?_, ?_, ?_, ?_, ?_, ?_, ?_, ?_,
    InitGame_gameTime rng g, InitGame_paused rng g, InitGame_gameOver rng g,
    InitGame_inMenu rng g⟩
  · rw [InitGame_rider, InitGame_difficultyMultiplier]
  · rw [InitGame_rider]
    simp [InitLineRider]
  · rw [InitGame_rider]
    simp [InitLineRider]
  · rw [InitGame_rider]
    simp [InitLineRider]
  · rw [InitGame_rider]
    simp [InitLineRider]
  · rw [InitGame_rider]
    simp [InitLineRider]
  · intro pt hpt
    rw [InitGame_particles] at hpt
    rw [List.eq_of_mem_replicate hpt]
    simp [zeroParticle]
  · rw [InitGame_particles]
    simp
  · simp only [InitGame]
    rw [hspawn.1, hcnt]
    simp
  · simp only [InitGame]
    rw [hspawn.2]
    simp

/-- Constant initialization streams. -/
def initRng0 : InitRng := ⟨rng0, rng00⟩

theorem claim_C7_witness :
    (InitGame initRng0 baseState).difficulty = baseState.difficulty ∧
    countActive (InitGame initRng0 baseState).powerups = 8 := by
  obtain ⟨h1, _, _, _, _, _, _, _, _, _, _, h12, _⟩ := claim_C7 initRng0 baseState
  exact ⟨h1, h12⟩

/-!
Claim C8.
-/

theorem wrapAxisX_id (r : ℕ → ℕ) (g : GameState) (h : LineSegment)
    (t : List LineSegment) (hsegs : g.rider.segments = h :: t)
    (hx : ¬ ARENA_SIZE / 2 < |h.position.x|) :
    wrapAxisX r g = g := by
  simp only [wrapAxisX, hsegs]
  rw [if_neg hx]

theorem wrapAxisZ_id (r : ℕ → ℕ) (g : GameState) (h : LineSegment)
    (t : List LineSegment) (hsegs : g.rider.segments = h :: t)
    (hz : ¬ ARENA_SIZE / 2 < |h.position.z|) :
    wrapAxisZ r g = g := by
  simp only [wrapAxisZ, hsegs]
  rw [if_neg hz]

theorem wrapAxisX_hit (r : ℕ → ℕ) (g : GameState) (h : LineSegment)
    (t : List LineSegment) (hsegs : g.rider.segments = h :: t)
    (hx : ARENA_SIZE / 2 < |h.position.x|) :
    (wrapAxisX r g).rider.segments =
      { h with position := ⟨-h.position.x * 0.95, h.position.y, h.position.z⟩ } :: t := by
  simp only [wrapAxisX, hsegs]
  rw [if_pos hx]

theorem wrapAxisZ_hit (r : ℕ → ℕ) (g : GameState) (h : LineSegment)
    (t : List LineSegment) (hsegs : g.rider.segments = h :: t)
    (hz : ARENA_SIZE / 2 < |h.position.z|) :
    (wrapAxisZ r g).rider.segments =
      { h with position := ⟨h.position.x, h.position.y, -h.position.z * 0.95⟩ } :: t := by
  simp only [wrapAxisZ, hsegs]
  rw [if_pos hz]

/-- Claim C8, amended: a head coordinate beyond the boundary is replaced by
its point reflection scaled inward, -coordinate x 0.95, leaving the other
coordinates alone, and a coordinate within the boundary is left untouched;
the wrap shrinks the magnitude by the factor 0.95, which brings the
coordinate back inside the boundary exactly when the old magnitude is at
most (ARENA_SIZE / 2) / 0.95 — a head farther out (reachable with a large
frame delta) is still outside after the wrap. -/
theorem claim_C8 (rngX rngZ : ℕ → ℕ) (g : GameState) (h : LineSegment)
    (t : List LineSegment) (hsegs : g.rider.segments = h :: t) :
    (ARENA_SIZE / 2 < |h.position.x| →
      ((wrapAxisX rngX g).rider.segments.getD 0 zeroSegment).position.x =
          -h.position.x * 0.95
      ∧ ((wrapAxisX rngX g).rider.segments.getD 0 zeroSegment).position.y =
          h.position.y
      ∧ ((wrapAxisX rngX g).rider.segments.getD 0 zeroSegment).position.z =
          h.position.z
      ∧ |(-h.position.x * 0.95)| = 0.95 * |h.position.x|
      ∧ (|h.position.x| ≤ ARENA_SIZE / 2 / 0.95 →
          |(-h.position.x * 0.95)| ≤ ARENA_SIZE / 2))
    ∧ (¬ ARENA_SIZE / 2 < |h.position.x| → wrapAxisX rngX g = g)
    ∧ (ARENA_SIZE / 2 < |h.position.z| →
      ((wrapAxisZ rngZ g).rider.segments.getD 0 zeroSegment).position.z =
          -h.position.z * 0.95
      ∧ |(-h.position.z * 0.95)| = 0.95 * |h.position.z|
      ∧ (|h.position.z| ≤ ARENA_SIZE / 2 / 0.95 →
          |(-h.position.z * 0.95)| ≤ ARENA_SIZE / 2))
    ∧ (¬ ARENA_SIZE / 2 < |h.position.z| → wrapAxisZ rngZ g = g) := by
  have habs : ∀ c : ℝ, |(-c * 0.95)| = 0.95 * |c| := by
    intro c
    rw [abs_mul, abs_neg]
    rw [abs_of_pos (by norm_num : (0:ℝ) < 0.95)]
    ring
  have hback : ∀ c : ℝ, |c| ≤ ARENA_SIZE / 2 / 0.95 →
      |(-c * 0.95)| ≤ ARENA_SIZE / 2 := by
    intro c hc
    rw [habs c]
    calc 0.95 * |c| ≤ 0.95 * (ARENA_SIZE / 2 / 0.95) := by
          exact mul_le_mul_of_nonneg_left hc (by norm_num)
      _ = ARENA_SIZE / 2 := by norm_num [ARENA_SIZE]
  refine ⟨?_, ?_, ?_, ?_⟩
  · intro hx
    rw [wrapAxisX_hit rngX g h t hsegs hx]
    exact ⟨by simp, by simp, by simp, habs _, hback _⟩
  · intro hx
    exact wrapAxisX_id rngX g h t hsegs hx
  · intro hz
    rw [wrapAxisZ_hit rngZ g h t hsegs hz]
    exact ⟨by simp, habs _, hback _⟩
  · intro hz
    exact wrapAxisZ_id rngZ g h t hsegs hz

theorem moveHeadStage_segments_cons (a s : ℝ) (r : LineRider) (h : LineSegment)
    (t : List LineSegment) (hs : r.segments = h :: t) :
    (moveHeadStage a s r).segments =
      { h with
        previousPos := h.position
        position := Vector3Add h.position
          ⟨Real.sin r.direction * s * a, 0, Real.cos r.direction * s * a⟩
        angle := r.direction } :: t := by
  simp only [moveHeadStage, hs]

theorem followStage_segments_cons (r : LineRider) (h : LineSegment)
    (t : List LineSegment) (hs : r.segments = h :: t) :
    (followStage r).segments = h :: followList h t := by
  simp only [followStage, hs]

theorem boostStage_off (a : ℝ) (g : GameState) (hb : g.rider.boosted = false) :
    boostStage a g = (g.rider.speed, g) := by
  unfold boostStage
  rw [if_neg (by simp [hb])]

/-- The state for the C8 counterexample: the head is far beyond the x
boundary. -/
def c8State : GameState :=
  { baseState with rider := { baseState.rider with
      segments := [mkSeg 60 0.5 0, mkSeg 60 0.5 (-1), mkSeg 60 0.5 (-2),
                   mkSeg 60 0.5 (-3), mkSeg 60 0.5 (-4)] } }

/-- Claim C8, counterexample to the claim as stated: with the head at
x = 60 (reachable with a large frame delta) a tick wraps the x coordinate to
-57, whose magnitude 57 still exceeds ARENA_SIZE / 2 = 50 — the inward
scaling does not always avoid immediate re-exit. -/
theorem claim_C8_counterexample :
    ARENA_SIZE / 2 <
      |((UpdateLineRider 0.01 0 tickRng0 c8State).rider.segments.getD 0
          zeroSegment).position.x| := by
  have hrun : ¬(¬c8State.rider.alive ∨ c8State.paused) := by
    simp [c8State, baseState, InitLineRider]
  rw [UpdateLineRider_run _ _ _ _ hrun]
  rw [turnStage_noTurn _ _ _ _ (by norm_num)]
  rw [boostStage_off _ _ (by simp [c8State, baseState, InitLineRider])]
  have hsegs0 : c8State.rider.segments = mkSeg 60 0.5 0 ::
      [mkSeg 60 0.5 (-1), mkSeg 60 0.5 (-2), mkSeg 60 0.5 (-3), mkSeg 60 0.5 (-4)] := rfl
  have hmove := moveHeadStage_segments_cons (0.01 * c8State.slowTimeMultiplier)
    c8State.rider.speed c8State.rider _ _ hsegs0
  set h2 : LineSegment :=
    { mkSeg 60 0.5 0 with
      previousPos := (mkSeg 60 0.5 0).position
      position := Vector3Add (mkSeg 60 0.5 0).position
        ⟨Real.sin c8State.rider.direction * c8State.rider.speed *
            (0.01 * c8State.slowTimeMultiplier), 0,
          Real.cos c8State.rider.direction * c8State.rider.speed *
            (0.01 * c8State.slowTimeMultiplier)⟩
      angle := c8State.rider.direction } with hh2
  have hpos : h2.position = ⟨60, 0.5, 0.12⟩ := by
    have hdir : c8State.rider.direction = 0 := by simp [c8State, baseState, InitLineRider]
    have hspd : c8State.rider.speed = 12 := by
      simp [c8State, baseState, InitLineRider, LINE_RIDER_SPEED]
    have hslow : c8State.slowTimeMultiplier = 1 := by simp [c8State, baseState]
    rw [hh2]
    simp [mkSeg, zeroSegment, Vector3Add, hdir, hspd, hslow]
    norm_num
  have hfollow := followStage_segments_cons (moveHeadStage
    (0.01 * c8State.slowTimeMultiplier) c8State.rider.speed c8State.rider) h2 _
    (by rw [hmove])
  have hsegs1 : (followStageG (moveStage (0.01 * c8State.slowTimeMultiplier)
      (c8State.rider.speed, c8State))).rider.segments =
      h2 :: followList h2 [mkSeg 60 0.5 (-1), mkSeg 60 0.5 (-2), mkSeg 60 0.5 (-3),
        mkSeg 60 0.5 (-4)] := by
    rw [followStageG_rider, moveStage_rider]
    exact hfollow
  have hwx := wrapAxisX_hit tickRng0.wrapX _ h2 _ hsegs1
    (by rw [hpos]; norm_num [ARENA_SIZE])
  have hwz := wrapAxisZ_id tickRng0.wrapZ
    (wrapAxisX tickRng0.wrapX (followStageG (moveStage (0.01 * c8State.slowTimeMultiplier)
      (c8State.rider.speed, c8State))))
    { h2 with position := ⟨-h2.position.x * 0.95, h2.position.y, h2.position.z⟩ } _
    hwx (by rw [hpos]; norm_num [ARENA_SIZE, abs_le])
  simp only [wrapStage]
  rw [hwz]
  simp only [energyStage_segments, collisionStage_segments, shieldStage_segments,
    passiveScoreStage_segments]
  rw [hwx]
  simp only [List.getD_cons_zero]
  have hdir : c8State.rider.direction = 0 := by simp [c8State, baseState, InitLineRider]
  have hspd : c8State.rider.speed = 12 := by
    simp [c8State, baseState, InitLineRider, LINE_RIDER_SPEED]
  have hslow : c8State.slowTimeMultiplier = 1 := by simp [c8State, baseState]
  rw [hdir, hspd, hslow]
  norm_num [Vector3Add, mkSeg, zeroSegment, ARENA_SIZE, Real.sin_zero, lt_abs]

/-- The state for the C8 witness: the head is just beyond the x boundary. -/
def c8WitState : GameState :=
  { baseState with rider := { baseState.rider with
      segments := [mkSeg 51 0.5 0, mkSeg 51 0.5 (-1), mkSeg 51 0.5 (-2),
                   mkSeg 51 0.5 (-3), mkSeg 51 0.5 (-4)] } }

theorem claim_C8_witness :
    c8WitState.rider.segments = mkSeg 51 0.5 0 ::
      [mkSeg 51 0.5 (-1), mkSeg 51 0.5 (-2), mkSeg 51 0.5 (-3), mkSeg 51 0.5 (-4)] ∧
    ARENA_SIZE / 2 < |(mkSeg 51 0.5 0).position.x| ∧
    |(mkSeg 51 0.5 0).position.x| ≤ ARENA_SIZE / 2 / 0.95 ∧
    ((wrapAxisX rng0 c8WitState).rider.segments.getD 0 zeroSegment).position.x =
        -(mkSeg 51 0.5 0).position.x * 0.95 ∧
    |(-(mkSeg 51 0.5 0).position.x * 0.95)| ≤ ARENA_SIZE / 2 := by
  have hsegs : c8WitState.rider.segments = mkSeg 51 0.5 0 ::
      [mkSeg 51 0.5 (-1), mkSeg 51 0.5 (-2), mkSeg 51 0.5 (-3), mkSeg 51 0.5 (-4)] := rfl
  have hx : ARENA_SIZE / 2 < |(mkSeg 51 0.5 0).position.x| := by
    norm_num [mkSeg, zeroSegment, ARENA_SIZE]
  have hle : |(mkSeg 51 0.5 0).position.x| ≤ ARENA_SIZE / 2 / 0.95 := by
    norm_num [mkSeg, zeroSegment, ARENA_SIZE]
  have hmain := (claim_C8 rng0 rng0 c8WitState _ _ hsegs).1 hx
  exact ⟨hsegs, hx, hle, hmain.1, hmain.2.2.2.2 hle⟩

/-!
Claim C4.
-/

theorem Vector3_ext (u w : Vector3) (hx : u.x = w.x) (hy : u.y = w.y)
    (hz : u.z = w.z) : u = w := by
  cases u; cases w; simp_all

@[simp]
theorem Vector3Add_x (a b : Vector3) : (Vector3Add a b).x = a.x + b.x := rfl

@[simp]
theorem Vector3Add_y (a b : Vector3) : (Vector3Add a b).y = a.y + b.y := rfl

@[simp]
theorem Vector3Add_z (a b : Vector3) : (Vector3Add a b).z = a.z + b.z := rfl

@[simp]
theorem Vector3Subtract_x (a b : Vector3) : (Vector3Subtract a b).x = a.x - b.x := rfl

@[simp]
theorem Vector3Subtract_y (a b : Vector3) : (Vector3Subtract a b).y = a.y - b.y := rfl

@[simp]
theorem Vector3Subtract_z (a b : Vector3) : (Vector3Subtract a b).z = a.z - b.z := rfl

@[simp]
theorem Vector3Scale_x (v : Vector3) (s : ℝ) : (Vector3Scale v s).x = v.x * s := rfl

@[simp]
theorem Vector3Scale_y (v : Vector3) (s : ℝ) : (Vector3Scale v s).y = v.y * s := rfl

@[simp]
theorem Vector3Scale_z (v : Vector3) (s : ℝ) : (Vector3Scale v s).z = v.z * s := rfl

theorem Vector3Normalize_x (v : Vector3) :
    (Vector3Normalize v).x = v.x * (1 / Vector3Length v) := rfl

theorem Vector3Normalize_y (v : Vector3) :
    (Vector3Normalize v).y = v.y * (1 / Vector3Length v) := rfl

theorem Vector3Normalize_z (v : Vector3) :
    (Vector3Normalize v).z = v.z * (1 / Vector3Length v) := rfl

@[simp]
theorem Vector3Lerp_x (a b : Vector3) (t : ℝ) :
    (Vector3Lerp a b t).x = a.x + t * (b.x - a.x) := rfl

@[simp]
theorem Vector3Lerp_y (a b : Vector3) (t : ℝ) :
    (Vector3Lerp a b t).y = a.y + t * (b.y - a.y) := rfl

@[simp]
theorem Vector3Lerp_z (a b : Vector3) (t : ℝ) :
    (Vector3Lerp a b t).z = a.z + t * (b.z - a.z) := rfl

theorem Vector3Length_scale (v : Vector3) (k : ℝ) :
    Vector3Length (Vector3Scale v k) = |k| * Vector3Length v := by
  show Real.sqrt ((v.x * k) ^ 2 + (v.y * k) ^ 2 + (v.z * k) ^ 2) = _
  rw [show (v.x * k) ^ 2 + (v.y * k) ^ 2 + (v.z * k) ^ 2 =
      k ^ 2 * (v.x ^ 2 + v.y ^ 2 + v.z ^ 2) by ring]
  rw [Real.sqrt_mul (sq_nonneg k), Real.sqrt_sq_eq_abs]
  rfl

/-- The displacement of a followed segment relative to its predecessor: the
lerp toward the point one spacing behind lands the segment on the line to
the predecessor, scaled by (d + spacing) / (2 d). -/
theorem followSegment_sub (prev cur : LineSegment)
    (hd : SEGMENT_SPACING < Vector3Length (Vector3Subtract prev.position cur.position)) :
    Vector3Subtract (followSegment prev cur).position prev.position =
      Vector3Scale (Vector3Subtract prev.position cur.position)
        (-(Vector3Length (Vector3Subtract prev.position cur.position) + SEGMENT_SPACING) /
          (2 * Vector3Length (Vector3Subtract prev.position cur.position))) := by
  have hd0 : 0 < Vector3Length (Vector3Subtract prev.position cur.position) :=
    lt_trans (by norm_num [SEGMENT_SPACING]) hd
  have hne : Vector3Length (Vector3Subtract prev.position cur.position) ≠ 0 :=
    ne_of_gt hd0
  simp only [followSegment]
  rw [if_pos hd]
  apply Vector3_ext <;>
    simp only [Vector3Subtract_x, Vector3Subtract_y, Vector3Subtract_z,
      Vector3Lerp_x, Vector3Lerp_y, Vector3Lerp_z, Vector3Add_x, Vector3Add_y,
      Vector3Add_z, Vector3Scale_x, Vector3Scale_y, Vector3Scale_z,
      Vector3Normalize_x, Vector3Normalize_y, Vector3Normalize_z] <;>
    (field_simp; ring)

/-- The distance from the updated predecessor after the follow lerp: the old
distance d becomes (d + spacing) / 2. -/
theorem followSegment_dist (prev cur : LineSegment)
    (hd : SEGMENT_SPACING < Vector3Length (Vector3Subtract prev.position cur.position)) :
    Vector3Distance prev.position (followSegment prev cur).position =
      (Vector3Length (Vector3Subtract prev.position cur.position) + SEGMENT_SPACING) / 2 := by
  have hd0 : 0 < Vector3Length (Vector3Subtract prev.position cur.position) :=
    lt_trans (by norm_num [SEGMENT_SPACING]) hd
  have hne : Vector3Length (Vector3Subtract prev.position cur.position) ≠ 0 :=
    ne_of_gt hd0
  unfold Vector3Distance
  rw [followSegment_sub prev cur hd, Vector3Length_scale]
  have habs : |(-(Vector3Length (Vector3Subtract prev.position cur.position) +
      SEGMENT_SPACING) / (2 * Vector3Length (Vector3Subtract prev.position cur.position)))| =
      (Vector3Length (Vector3Subtract prev.position cur.position) + SEGMENT_SPACING) /
        (2 * Vector3Length (Vector3Subtract prev.position cur.position)) := by
    rw [abs_div, abs_neg]
    rw [abs_of_pos (by norm_num [SEGMENT_SPACING]; linarith)]
    rw [abs_of_pos (by linarith)]
  rw [habs]
  field_simp
  ring

/-- Claim C4, amended: whenever a body segment sits farther than
SEGMENT_SPACING from its already-updated predecessor, the follow step moves
it by linear interpolation with factor 0.5 toward the point exactly one
spacing behind the predecessor and takes its facing angle from the direction
vector; afterwards its distance to the predecessor is exactly
(d + SEGMENT_SPACING) / 2 — the gap shrinks but is halved rather than
bounded by SEGMENT_SPACING plus a fixed tolerance.  A segment within
SEGMENT_SPACING does not move. -/
theorem claim_C4 (prev cur : LineSegment) :
    (SEGMENT_SPACING < Vector3Length (Vector3Subtract prev.position cur.position) →
      (followSegment prev cur).position =
        Vector3Lerp cur.position
          (Vector3Add prev.position
            (Vector3Scale (Vector3Normalize (Vector3Subtract prev.position cur.position))
              (-SEGMENT_SPACING))) 0.5
      ∧ (followSegment prev cur).angle =
          atan2f (Vector3Subtract prev.position cur.position).x
            (Vector3Subtract prev.position cur.position).z
      ∧ Vector3Distance prev.position (followSegment prev cur).position =
          (Vector3Length (Vector3Subtract prev.position cur.position) + SEGMENT_SPACING) / 2
      ∧ Vector3Distance prev.position (followSegment prev cur).position <
          Vector3Length (Vector3Subtract prev.position cur.position))
    ∧ (¬ SEGMENT_SPACING < Vector3Length (Vector3Subtract prev.position cur.position) →
        (followSegment prev cur).position = cur.position) := by
  constructor
  · intro hd
    refine ⟨?_, ?_, followSegment_dist prev cur hd, ?_⟩
    · simp only [followSegment]
      rw [if_pos hd]
    · simp only [followSegment]
      rw [if_pos hd]
    · rw [followSegment_dist prev cur hd]
      linarith
  · intro hd
    simp only [followSegment]
    rw [if_neg hd]

theorem Vector3Distance_zaxis (a b : Vector3) (hx : b.x = a.x) (hy : b.y = a.y) :
    Vector3Distance a b = |b.z - a.z| := by
  show Real.sqrt ((b.x - a.x) ^ 2 + (b.y - a.y) ^ 2 + (b.z - a.z) ^ 2) = _
  rw [hx, hy]
  rw [show (a.x - a.x) ^ 2 + (a.y - a.y) ^ 2 + (b.z - a.z) ^ 2 = (b.z - a.z) ^ 2 by ring]
  exact Real.sqrt_sq_eq_abs _

/-- The follow step along the z axis. -/
theorem followSegment_zaxis (prev cur : LineSegment)
    (hx : prev.position.x = cur.position.x) (hy : prev.position.y = cur.position.y)
    (hz : SEGMENT_SPACING < prev.position.z - cur.position.z) :
    (followSegment prev cur).position =
      ⟨cur.position.x, cur.position.y,
        (cur.position.z + prev.position.z - SEGMENT_SPACING) / 2⟩ := by
  have hzpos : 0 < prev.position.z - cur.position.z :=
    lt_trans (by norm_num [SEGMENT_SPACING]) hz
  have hlen : Vector3Length (Vector3Subtract prev.position cur.position) =
      prev.position.z - cur.position.z := by
    show Real.sqrt ((prev.position.x - cur.position.x) ^ 2 +
      (prev.position.y - cur.position.y) ^ 2 +
      (prev.position.z - cur.position.z) ^ 2) = _
    rw [hx, hy]
    rw [show (cur.position.x - cur.position.x) ^ 2 + (cur.position.y - cur.position.y) ^ 2 +
        (prev.position.z - cur.position.z) ^ 2 = (prev.position.z - cur.position.z) ^ 2
      by ring]
    exact Real.sqrt_sq hzpos.le
  have hd : SEGMENT_SPACING < Vector3Length (Vector3Subtract prev.position cur.position) := by
    rw [hlen]; exact hz
  have hsub := followSegment_sub prev cur hd
  rw [hlen] at hsub
  have h1 := congrArg Vector3.x hsub
  have h2 := congrArg Vector3.y hsub
  have h3 := congrArg Vector3.z hsub
  simp only [Vector3Subtract_x, Vector3Subtract_y, Vector3Subtract_z,
    Vector3Scale_x, Vector3Scale_y, Vector3Scale_z] at h1 h2 h3
  have hne : prev.position.z - cur.position.z ≠ 0 := ne_of_gt hzpos
  have hfx : (followSegment prev cur).position.x = cur.position.x := by
    rw [hx] at h1
    simp at h1
    linarith
  have hfy : (followSegment prev cur).position.y = cur.position.y := by
    rw [hy] at h2
    simp at h2
    linarith
  have hfz : (followSegment prev cur).position.z =
      (cur.position.z + prev.position.z - SEGMENT_SPACING) / 2 := by
    have hsimp : (prev.position.z - cur.position.z) *
        (-(prev.position.z - cur.position.z + SEGMENT_SPACING) /
          (2 * (prev.position.z - cur.position.z))) =
        -(prev.position.z - cur.position.z + SEGMENT_SPACING) / 2 := by
      field_simp
      ring
    rw [hsimp] at h3
    linarith
  apply Vector3_ext
  · rw [hfx]
  · rw [hfy]
  · rw [hfz]

/-- The state for the C4 counterexample: the trailing segments lag far
behind the head, as after a boundary wrap. -/
def c4State : GameState :=
  { baseState with rider := { baseState.rider with
      segments := [mkSeg 0 0.5 0, mkSeg 0 0.5 (-96), mkSeg 0 0.5 (-97),
                   mkSeg 0 0.5 (-98), mkSeg 0 0.5 (-99)] } }

/-- Claim C4, counterexample to the claim as stated: after one tick from a
reachable state in which segment 1 lags 96 units behind the head (the head
teleports on a boundary wrap), segment 1 is still about 48.5 units — more
than 40 spacing units — away from the head: the 0.5 lerp halves the gap
each tick instead of bounding it by one spacing unit plus a tolerance. -/
theorem claim_C4_counterexample :
    40 * SEGMENT_SPACING <
      Vector3Distance
        (((UpdateLineRider 0.01 0 tickRng0 c4State).rider.segments.getD 0
            zeroSegment).position)
        (((UpdateLineRider 0.01 0 tickRng0 c4State).rider.segments.getD 1
            zeroSegment).position) := by
  have hrun : ¬(¬c4State.rider.alive ∨ c4State.paused) := by
    simp [c4State, baseState, InitLineRider]
  rw [UpdateLineRider_run _ _ _ _ hrun]
  rw [turnStage_noTurn _ _ _ _ (by norm_num)]
  rw [boostStage_off _ _ (by simp [c4State, baseState, InitLineRider])]
  have hsegs0 : c4State.rider.segments = mkSeg 0 0.5 0 ::
      [mkSeg 0 0.5 (-96), mkSeg 0 0.5 (-97), mkSeg 0 0.5 (-98), mkSeg 0 0.5 (-99)] := rfl
  have hmove := moveHeadStage_segments_cons (0.01 * c4State.slowTimeMultiplier)
    c4State.rider.speed c4State.rider _ _ hsegs0
  set h2 : LineSegment :=
    { mkSeg 0 0.5 0 with
      previousPos := (mkSeg 0 0.5 0).position
      position := Vector3Add (mkSeg 0 0.5 0).position
        ⟨Real.sin c4State.rider.direction * c4State.rider.speed *
            (0.01 * c4State.slowTimeMultiplier), 0,
          Real.cos c4State.rider.direction * c4State.rider.speed *
            (0.01 * c4State.slowTimeMultiplier)⟩
      angle := c4State.rider.direction } with hh2
  have hdir : c4State.rider.direction = 0 := by simp [c4State, baseState, InitLineRider]
  have hspd : c4State.rider.speed = 12 := by
    simp [c4State, baseState, InitLineRider, LINE_RIDER_SPEED]
  have hslow : c4State.slowTimeMultiplier = 1 := by simp [c4State, baseState]
  have hpos : h2.position = ⟨0, 0.5, 0.12⟩ := by
    rw [hh2]
    simp [mkSeg, zeroSegment, Vector3Add, hdir, hspd, hslow]
    norm_num
  have hfollow := followStage_segments_cons (moveHeadStage
    (0.01 * c4State.slowTimeMultiplier) c4State.rider.speed c4State.rider) h2 _
    (by rw [hmove])
  have hsegs1 : (followStageG (moveStage (0.01 * c4State.slowTimeMultiplier)
      (c4State.rider.speed, c4State))).rider.segments =
      h2 :: followList h2 [mkSeg 0 0.5 (-96), mkSeg 0 0.5 (-97), mkSeg 0 0.5 (-98),
        mkSeg 0 0.5 (-99)] := by
    rw [followStageG_rider, moveStage_rider]
    exact hfollow
  have hwx := wrapAxisX_id tickRng0.wrapX _ h2 _ hsegs1
    (by rw [hpos]; norm_num [ARENA_SIZE, abs_le, abs_zero])
  have hwz := wrapAxisZ_id tickRng0.wrapZ
    (wrapAxisX tickRng0.wrapX (followStageG (moveStage (0.01 * c4State.slowTimeMultiplier)
      (c4State.rider.speed, c4State)))) h2 _ (by rw [hwx]; exact hsegs1)
    (by rw [hpos]; norm_num [ARENA_SIZE, abs_le])
  simp only [wrapStage]
  rw [hwz, hwx]
  simp only [energyStage_segments, collisionStage_segments, shieldStage_segments,
    passiveScoreStage_segments]
  rw [hsegs1]
  simp only [followList, List.getD_cons_zero, List.getD_cons_succ]
  have hfx : h2.position.x = (mkSeg 0 0.5 (-96)).position.x := by
    rw [hpos]; simp [mkSeg, zeroSegment]
  have hfy : h2.position.y = (mkSeg 0 0.5 (-96)).position.y := by
    rw [hpos]; simp [mkSeg, zeroSegment]
  have hfz : SEGMENT_SPACING < h2.position.z - (mkSeg 0 0.5 (-96)).position.z := by
    rw [hpos]; norm_num [mkSeg, zeroSegment, SEGMENT_SPACING]
  have hs1 := followSegment_zaxis h2 (mkSeg 0 0.5 (-96)) hfx hfy hfz
  rw [hs1]
  rw [Vector3Distance_zaxis h2.position _
    (by rw [hpos]; simp [mkSeg, zeroSegment])
    (by rw [hpos]; simp [mkSeg, zeroSegment])]
  rw [hpos]
  norm_num [mkSeg, zeroSegment, SEGMENT_SPACING, lt_abs]

theorem claim_C4_witness :
    SEGMENT_SPACING < Vector3Length (Vector3Subtract (mkSeg 0 0.5 0).position
      (mkSeg 0 0.5 (-3)).position) ∧
    Vector3Distance (mkSeg 0 0.5 0).position
        (followSegment (mkSeg 0 0.5 0) (mkSeg 0 0.5 (-3))).position =
      (Vector3Length (Vector3Subtract (mkSeg 0 0.5 0).position
          (mkSeg 0 0.5 (-3)).position) + SEGMENT_SPACING) / 2 := by
  have hsub : Vector3Subtract (mkSeg 0 0.5 0).position (mkSeg 0 0.5 (-3)).position =
      ⟨0, 0, 3⟩ := by
    apply Vector3_ext <;> simp [mkSeg, zeroSegment]
  have hl : Vector3Length (Vector3Subtract (mkSeg 0 0.5 0).position
      (mkSeg 0 0.5 (-3)).position) = 3 := by
    rw [hsub]
    show Real.sqrt ((0 : ℝ) ^ 2 + 0 ^ 2 + 3 ^ 2) = 3
    rw [show ((0 : ℝ) ^ 2 + 0 ^ 2 + 3 ^ 2) = 3 ^ 2 by norm_num]
    exact Real.sqrt_sq (by norm_num)
  have hd : SEGMENT_SPACING < Vector3Length (Vector3Subtract (mkSeg 0 0.5 0).position
      (mkSeg 0 0.5 (-3)).position) := by
    rw [hl]
    norm_num [SEGMENT_SPACING]
  exact ⟨hd, ((claim_C4 (mkSeg 0 0.5 0) (mkSeg 0 0.5 (-3))).1 hd).2.2.1⟩

/-- The state for the C10 witness: more than 2 pi of rotation already
accumulated. -/
def c10State : GameState :=
  { baseState with rider := { baseState.rider with totalRotation := 7 } }

theorem claim_C10_witness :
    ¬ (0 : ℝ) < 0 ∧ 2 * Real.pi ≤ c10State.rider.totalRotation ∧
    (UpdateLineRider 1 0 tickRng0 c10State).rider.turnsCompleted =
      c10State.rider.turnsCompleted := by
  refine ⟨by norm_num, ?_, ?_⟩
  · have hpi := Real.pi_lt_d2
    have h7 : c10State.rider.totalRotation = 7 := by
      simp [c10State, baseState, InitLineRider]
    rw [h7]
    linarith
  · exact ((claim_C10 c10State 1 0 tickRng0).2 (by norm_num)).1

end

end SpaceIsLeft
